import Mathlib

/-!
# SENTINEL ground-station telemetry pipeline — a verification development

A shallow embedding of the telemetry processing pipeline of the SENTINEL
ground station (`backend/data_parser.py`, `backend/sensor_fusion.py`,
`backend/websocket_server.py`), together with theorems settling the frozen
claims about it.

Python dictionaries holding heterogeneous JSON-like values are modelled by
association lists of `String × JValue` with Python's insertion/overwrite
semantics; Python `int` values by `Int`, Python `float` values by `ℚ` in the
parser layer (where every float the code produces is an exact decimal or an
exact quotient of integers) and by `ℝ` in the sensor-fusion layer (where
square roots and trigonometry occur).  Fallible operations return `Option`.
-/

namespace Sentinel

/-- A Python/JSON value as stored in the records the pipeline produces:
`none` (null), booleans, integers, floats, strings, lists, dictionaries.
Python `int` and `float` are kept distinct (`int` vs `num`), mirroring the
distinction the parsers make between `int(value)` and `float(value)`. -/
inductive JValue where
  | null : JValue
  | bool (b : Bool) : JValue
  | int (n : Int) : JValue
  | num (q : ℚ) : JValue
  | str (s : String) : JValue
  | arr (xs : List JValue) : JValue
  | obj (fields : List (String × JValue)) : JValue

/-- A Python dictionary with string keys: an association list in insertion
order.  `objSet` below implements `d[k] = v` (overwrite in place or append),
`objGet` implements `d.get(k)` / `k in d`. -/
abbrev Obj := List (String × JValue)

/-- Python `d[k] = v`: overwrite the value at the first occurrence of `k`,
keeping its position, or append `(k, v)` at the end. -/
def objSet : Obj → String → JValue → Obj
  | [], k, v => [(k, v)]
  | (k', v') :: rest, k, v =>
      if k' = k then (k', v) :: rest else (k', v') :: objSet rest k v

/-- Python `d.get(k)`: the value at the first (only) occurrence of `k`. -/
def objGet (d : Obj) (k : String) : Option JValue :=
  (d.find? (fun p => p.1 = k)).map (fun p => p.2)

/-- `parsed_data[name] = v` guarded by `if parsed_value is not None`. -/
def setOpt (d : Obj) (k : String) (v? : Option JValue) : Obj :=
  match v? with
  | some v => objSet d k v
  | none => d

/-- Python truthiness of a dictionary: `if parsed_data:` is true exactly for a
non-empty dict (a `None` result is handled by the surrounding `Option`). -/
def jtruthy (d : Obj) : Bool := !d.isEmpty

/-! ## Python string primitives

The parsers work on Python `str` values.  They are modelled on `List Char`
(with `String` at the API surface) so that every operation is a plain
structural recursion the kernel can evaluate. -/

/-- The whitespace set of Python `str.strip()` for the ASCII range
(space, tab, newline, carriage return, vertical tab, form feed).  Unicode
whitespace, which Python also strips, does not occur in the telemetry lines
and is not modelled. -/
def pySpace (c : Char) : Bool :=
  c = ' ' || c = '\t' || c = '\n' || c = '\r' || c = '\x0b' || c = '\x0c'

/-- Python `s.strip()` on a character list. -/
def pyStripL (l : List Char) : List Char :=
  ((l.dropWhile pySpace).reverse.dropWhile pySpace).reverse

/-- Python `s.strip()`. -/
def pyStrip (s : String) : String := String.mk (pyStripL s.data)

/-- If `sep` is a prefix of `l`, the remainder of `l` after it. -/
def stripSep? : List Char → List Char → Option (List Char)
  | [], l => some l
  | _ :: _, [] => none
  | s :: srest, c :: rest => if c = s then stripSep? srest rest else none

/-- Worker for `pySplitL`: scan for the (non-empty) separator `s0 :: srest`,
accumulating the current field in `acc` (reversed).  Structural recursion on
`fuel` so that the kernel can evaluate it; each step consumes at least one
character, so `fuel = l.length + 1` never runs out (the out-of-fuel arm is
unreachable for such calls). -/
def splitAux (s0 : Char) (srest : List Char) : Nat → List Char → List Char → List (List Char)
  | 0, _, acc => [acc.reverse]
  | _ + 1, [], acc => [acc.reverse]
  | fuel + 1, c :: rest, acc =>
      if c = s0 then
        match stripSep? srest rest with
        | some rest' => acc.reverse :: splitAux s0 srest fuel rest' []
        | none => splitAux s0 srest fuel rest (c :: acc)
      else splitAux s0 srest fuel rest (c :: acc)

/-- Python `s.split(sep)` for a non-empty separator: non-overlapping
left-to-right matches; always at least one field.  The empty separator, for
which Python raises `ValueError`, is handled by the (sole) caller. -/
def pySplitL (sep l : List Char) : List (List Char) :=
  match sep with
  | [] => [l]
  | s0 :: srest => splitAux s0 srest (l.length + 1) l []

/-- Python `s.split(sep)` on strings (non-empty `sep`). -/
def pySplit (sep s : String) : List String :=
  (pySplitL sep.data s.data).map String.mk

/-- Python `needle in haystack` on character lists (empty needle is `True`). -/
def containsSub : List Char → List Char → Bool
  | _, [] => true
  | [], n => (stripSep? n []).isSome
  | l@(_ :: rest), n =>
      (stripSep? n l).isSome || containsSub rest n

/-- Python `needle in haystack` for strings. -/
def pyIn (needle haystack : String) : Bool := containsSub haystack.data needle.data

/-- Python `s.startswith(p)`. -/
def pyStartsWith (s p : String) : Bool := (stripSep? p.data s.data).isSome

/-- The numeric value of a list of decimal digits. -/
def digitsToNat (l : List Char) : Nat :=
  l.foldl (fun acc c => acc * 10 + (c.toNat - '0'.toNat)) 0

/-- All characters are ASCII decimal digits and there is at least one. -/
def allDigits (l : List Char) : Bool := !l.isEmpty && l.all Char.isDigit

/-- Python `int(s)` for base 10: optional surrounding whitespace, an optional
sign, then decimal digits.  (Digit-group underscores and non-ASCII digits,
which Python also accepts, do not occur in telemetry data and are not
modelled.) -/
def pyInt? (s : String) : Option Int :=
  let l := pyStripL s.data
  match l with
  | '+' :: rest => if allDigits rest then some (digitsToNat rest : Int) else none
  | '-' :: rest => if allDigits rest then some (-(digitsToNat rest : Int)) else none
  | rest => if allDigits rest then some (digitsToNat rest : Int) else none

/-- `10 ^ e` over `ℚ` for a possibly negative exponent. -/
def pow10 (e : Int) : ℚ :=
  if 0 ≤ e then ((10 : ℚ) ^ e.toNat) else 1 / ((10 : ℚ) ^ (-e).toNat)

/-- The exponent part of a float literal: empty, or `e`/`E`, an optional
sign and at least one digit.  Returns the scaled mantissa. -/
def pyFloatExp (m : ℚ) : List Char → Option ℚ
  | [] => some m
  | c :: rest =>
      if c = 'e' || c = 'E' then
        match rest with
        | '+' :: ds => if allDigits ds then some (m * pow10 (digitsToNat ds : Int)) else none
        | '-' :: ds => if allDigits ds then some (m * pow10 (-(digitsToNat ds : Int))) else none
        | ds => if allDigits ds then some (m * pow10 (digitsToNat ds : Int)) else none
      else none

/-- Python `float(s)` for finite decimal literals: optional surrounding
whitespace and sign, digits with an optional point (at least one digit on one
side), and an optional exponent.  (`inf`/`nan` spellings, which Python also
accepts, do not occur in telemetry data and are not modelled.) -/
def pyFloat? (s : String) : Option ℚ :=
  let l := pyStripL s.data
  let signed : Bool × List Char :=
    match l with
    | '+' :: rest => (false, rest)
    | '-' :: rest => (true, rest)
    | rest => (false, rest)
  let ip := signed.2.takeWhile Char.isDigit
  let r1 := signed.2.dropWhile Char.isDigit
  let mag? : Option ℚ :=
    match r1 with
    | '.' :: r2 =>
        let fp := r2.takeWhile Char.isDigit
        let r3 := r2.dropWhile Char.isDigit
        if ip.isEmpty && fp.isEmpty then none
        else pyFloatExp ((digitsToNat (ip ++ fp) : ℚ) / (10 : ℚ) ^ fp.length) r3
    | _ => if ip.isEmpty then none else pyFloatExp (digitsToNat ip : ℚ) r1
  mag?.map (fun q => if signed.1 then -q else q)

/-! ## `datetime.strptime` for the fixed format `"%m/%d/%Y,%H:%M:%S"`

Modelled from CPython's `_strptime`: `%m`, `%d`, `%H`, `%M`, `%S` match one
or two digits, `%Y` exactly four; the values must form a valid calendar date
(`datetime` furthermore requires `year ≥ 1` and `second ≤ 59`). -/

/-- A naive `datetime.datetime` value. -/
structure PyDateTime where
  year : Int
  month : Int
  day : Int
  hour : Int
  minute : Int
  second : Int

/-- Gregorian leap year. -/
def isLeap (y : Int) : Bool := y % 4 = 0 && (y % 100 ≠ 0 || y % 400 = 0)

/-- Days in a month of a given year. -/
def daysInMonth (y m : Int) : Int :=
  if m = 2 then (if isLeap y then 29 else 28)
  else if m = 4 || m = 6 || m = 9 || m = 11 then 30
  else 31

/-- A one-or-two-digit field with its value in `[lo, hi]`. -/
def field2? (lo hi : Int) (l : List Char) : Option Int :=
  if allDigits l && l.length ≤ 2 then
    let v : Int := (digitsToNat l : Int)
    if lo ≤ v && v ≤ hi then some v else none
  else none

/-- `datetime.strptime(date ++ "," ++ time, "%m/%d/%Y,%H:%M:%S")`. -/
def strptimeMDY? (dateS timeS : String) : Option PyDateTime :=
  match pySplitL ['/'] dateS.data, pySplitL [':'] timeS.data with
  | [ms, ds, ys], [hs, mis, ss] =>
      match field2? 1 12 ms, field2? 1 31 ds, field2? 0 23 hs,
            field2? 0 59 mis, field2? 0 59 ss with
      | some mv, some dv, some hv, some miv, some sv =>
          if allDigits ys && ys.length = 4 then
            let yv : Int := (digitsToNat ys : Int)
            if 1 ≤ yv && dv ≤ daysInMonth yv mv then
              some ⟨yv, mv, dv, hv, miv, sv⟩
            else none
          else none
      | _, _, _, _, _ => none
  | _, _ => none

/-- A nonnegative integer rendered with at least two digits. -/
def pad2 (n : Int) : String :=
  if n < 10 then "0" ++ toString n else toString n

/-- A nonnegative integer rendered with at least four digits. -/
def pad4 (n : Int) : String :=
  if n < 10 then "000" ++ toString n
  else if n < 100 then "00" ++ toString n
  else if n < 1000 then "0" ++ toString n
  else toString n

/-- `datetime.isoformat()` for a whole-second naive datetime. -/
def isoFormat (dt : PyDateTime) : String :=
  pad4 dt.year ++ "-" ++ pad2 dt.month ++ "-" ++ pad2 dt.day ++ "T" ++
    pad2 dt.hour ++ ":" ++ pad2 dt.minute ++ ":" ++ pad2 dt.second

/-- Days since 1970-01-01 of a civil date (Hinnant's `days_from_civil`;
written with truncating integer division exactly as the original). -/
def daysFromCivil (y m d : Int) : Int :=
  let y' := if m ≤ 2 then y - 1 else y
  let era := (if 0 ≤ y' then y' else y' - 399) / 400
  let yoe := y' - era * 400
  let doy := (153 * (m + (if 2 < m then -3 else 9)) + 2) / 5 + d - 1
  let doe := yoe * 365 + yoe / 4 - yoe / 100 + doy
  era * 146097 + doe - 719468

/-- `datetime.timestamp()`.  Python interprets the naive datetime in the
host's local timezone; the offset is irrelevant to every claim and the value
is modelled as the UTC epoch time. -/
def pyTimestamp (dt : PyDateTime) : ℚ :=
  ((daysFromCivil dt.year dt.month dt.day * 86400 +
    dt.hour * 3600 + dt.minute * 60 + dt.second : Int) : ℚ)

/-! ## `ArmedStateTelemetryParser` (`data_parser.py`)

Lines `<date,time,altitude,3×accel,3×gyro,3×mag,lat,lon,sats,temp>`.
`parse` re-validates, splits the 16 fields, converts each by name
(`_convert_value`, dropping a field whose conversion fails), derives the
combined datetime, the unit conversions, `gps_valid`, and the metadata. -/

/-- `ArmedStateTelemetryParser.validate_format`: stripped line enclosed in
`<`…`>`, exactly 16 comma-separated fields, fields 0 and 1 parse with
`"%m/%d/%Y,%H:%M:%S"`. -/
def armedValidate (raw : String) : Bool :=
  let s := pyStrip raw
  if s.data.isEmpty then false
  else if !(pyStartsWith s "<" && s.data.getLast? = some '>') then false
  else
    let content := String.mk (s.data.drop 1 |>.dropLast)
    let parts := pySplit "," content
    if parts.length ≠ 16 then false
    else
      match parts, parts.tail? with
      | p0 :: _, some (p1 :: _) => (strptimeMDY? p0 p1).isSome
      | _, _ => false

/-- `ArmedStateTelemetryParser._is_gps_valid`. -/
def isGpsValid (lat1e7 lon1e7 satellites : Int) : Bool :=
  4 ≤ satellites && 100000 < |lat1e7| && 100000 < |lon1e7|

/-- The numeric content of a stored `JValue` (the call sites only ever read
keys the field loop stored an `int` at, so the other cases never arise;
Python would raise there and the whole line would be dropped). -/
def asNum : JValue → ℚ
  | JValue.int n => (n : ℚ)
  | JValue.num q => q
  | _ => 0

/-- The integer content of a stored `JValue` (see `asNum`). -/
def asInt : JValue → Int
  | JValue.int n => n
  | _ => 0

/-- The body of `ArmedStateTelemetryParser.parse` after validation split the
stripped line `s` into its 16 fields: the per-index conversion loop (in index
order), the derived-field blocks and the metadata, exactly in source order.
`now` is `datetime.now().isoformat()`. -/
def armedBuild (now s f0 f1 f2 f3 f4 f5 f6 f7 f8 f9 f10 f11 f12 f13 f14 f15 : String) : Obj :=
  -- the field-mapping loop: `parsed_data[name] = _convert_value(name, value.strip())`
  let d := setOpt [] "date" (some (JValue.str (pyStrip f0)))
  let d := setOpt d "time" (some (JValue.str (pyStrip f1)))
  let d := setOpt d "altitude_m" ((pyFloat? (pyStrip f2)).map JValue.num)
  let d := setOpt d "accel_x_mg" ((pyInt? (pyStrip f3)).map JValue.int)
  let d := setOpt d "accel_y_mg" ((pyInt? (pyStrip f4)).map JValue.int)
  let d := setOpt d "accel_z_mg" ((pyInt? (pyStrip f5)).map JValue.int)
  let d := setOpt d "gyro_x_centidps" ((pyInt? (pyStrip f6)).map JValue.int)
  let d := setOpt d "gyro_y_centidps" ((pyInt? (pyStrip f7)).map JValue.int)
  let d := setOpt d "gyro_z_centidps" ((pyInt? (pyStrip f8)).map JValue.int)
  let d := setOpt d "mag_x_decisla" ((pyInt? (pyStrip f9)).map JValue.int)
  let d := setOpt d "mag_y_decisla" ((pyInt? (pyStrip f10)).map JValue.int)
  let d := setOpt d "mag_z_decisla" ((pyInt? (pyStrip f11)).map JValue.int)
  let d := setOpt d "gps_lat_1e7" ((pyInt? (pyStrip f12)).map JValue.int)
  let d := setOpt d "gps_lon_1e7" ((pyInt? (pyStrip f13)).map JValue.int)
  let d := setOpt d "gps_satellites" ((pyInt? (pyStrip f14)).map JValue.int)
  let d := setOpt d "temperature_c" ((pyInt? (pyStrip f15)).map JValue.int)
  -- combined datetime: both keys are set exactly when `date` and `time` are
  -- present and `strptime` succeeds on the stored strings (`ValueError` skips)
  let dtOpt : Option PyDateTime :=
    match objGet d "date", objGet d "time" with
    | some (JValue.str ds), some (JValue.str ts) => strptimeMDY? ds ts
    | _, _ => none
  let d := setOpt d "datetime" (dtOpt.map (fun dt => JValue.str (isoFormat dt)))
  let d := setOpt d "timestamp" (dtOpt.map (fun dt => JValue.num (pyTimestamp dt)))
  -- GPS coordinates to decimal degrees
  let d :=
    if (objGet d "gps_lat_1e7").isSome && (objGet d "gps_lon_1e7").isSome then
      let dv := objSet d "gps_lat_deg"
        (JValue.num (asNum ((objGet d "gps_lat_1e7").getD JValue.null) / 10000000))
      objSet dv "gps_lon_deg"
        (JValue.num (asNum ((objGet d "gps_lon_1e7").getD JValue.null) / 10000000))
    else d
  -- accelerometer to g-force
  let d :=
    if (objGet d "accel_x_mg").isSome && (objGet d "accel_y_mg").isSome &&
        (objGet d "accel_z_mg").isSome then
      let dv := objSet d "accel_x_g"
        (JValue.num (asNum ((objGet d "accel_x_mg").getD JValue.null) / 1000))
      let dv := objSet dv "accel_y_g"
        (JValue.num (asNum ((objGet d "accel_y_mg").getD JValue.null) / 1000))
      objSet dv "accel_z_g"
        (JValue.num (asNum ((objGet d "accel_z_mg").getD JValue.null) / 1000))
    else d
  -- gyroscope to degrees/sec
  let d :=
    if (objGet d "gyro_x_centidps").isSome && (objGet d "gyro_y_centidps").isSome &&
        (objGet d "gyro_z_centidps").isSome then
      let dv := objSet d "gyro_x_dps"
        (JValue.num (asNum ((objGet d "gyro_x_centidps").getD JValue.null) / 100))
      let dv := objSet dv "gyro_y_dps"
        (JValue.num (asNum ((objGet d "gyro_y_centidps").getD JValue.null) / 100))
      objSet dv "gyro_z_dps"
        (JValue.num (asNum ((objGet d "gyro_z_centidps").getD JValue.null) / 100))
    else d
  -- magnetometer to microTesla
  let d :=
    if (objGet d "mag_x_decisla").isSome && (objGet d "mag_y_decisla").isSome &&
        (objGet d "mag_z_decisla").isSome then
      let dv := objSet d "mag_x_ut"
        (JValue.num (asNum ((objGet d "mag_x_decisla").getD JValue.null) / 10))
      let dv := objSet dv "mag_y_ut"
        (JValue.num (asNum ((objGet d "mag_y_decisla").getD JValue.null) / 10))
      objSet dv "mag_z_ut"
        (JValue.num (asNum ((objGet d "mag_z_decisla").getD JValue.null) / 10))
    else d
  -- GPS validity
  let d :=
    if (objGet d "gps_lat_1e7").isSome && (objGet d "gps_lon_1e7").isSome &&
        (objGet d "gps_satellites").isSome then
      objSet d "gps_valid"
        (JValue.bool (isGpsValid (asInt ((objGet d "gps_lat_1e7").getD JValue.null))
          (asInt ((objGet d "gps_lon_1e7").getD JValue.null))
          (asInt ((objGet d "gps_satellites").getD JValue.null))))
    else d
  -- metadata
  let d := objSet d "_parser" (JValue.str "ARMED_TELEMETRY")
  let d := objSet d "_timestamp_parsed" (JValue.str now)
  let d := objSet d "_raw_data" (JValue.str s)
  objSet d "_state" (JValue.str "ARMED")

/-- `ArmedStateTelemetryParser.parse`: strip, re-validate, split the 16
fields and build the record.  (Validation guarantees exactly 16 fields, so
the catch-all match arm is unreachable.) -/
def armedParse (now raw : String) : Option Obj :=
  let s := pyStrip raw
  if armedValidate s then
    match pySplit "," (String.mk (s.data.drop 1 |>.dropLast)) with
    | [f0, f1, f2, f3, f4, f5, f6, f7, f8, f9, f10, f11, f12, f13, f14, f15] =>
        some (armedBuild now s f0 f1 f2 f3 f4 f5 f6 f7 f8 f9 f10 f11 f12 f13 f14 f15)
    | _ => none
  else none

/-! ## `json.loads` (used by `JSONParser`)

A recursive-descent JSON reader equivalent to Python's `json.loads` on
standard JSON text: objects, arrays, strings with escapes, numbers,
`true`/`false`/`null`, with surrounding whitespace.  Python additionally
accepts `NaN`/`Infinity` literals and lone surrogate escapes; neither occurs
in any telemetry input and they are not modelled (such text is rejected).
Integer literals load as `int`, fractional/exponent literals as `num`. -/

/-- JSON insignificant whitespace. -/
def jskipWs (l : List Char) : List Char :=
  l.dropWhile (fun c => c = ' ' || c = '\t' || c = '\n' || c = '\r')

/-- The opening curly brace character. -/
def braceOpen : Char := Char.ofNat 123

/-- The closing curly brace character. -/
def braceClose : Char := Char.ofNat 125

/-- The value of a hexadecimal digit (codepoints 48–57 are `0`–`9`,
97–102 are `a`–`f`, 65–70 are `A`–`F`). -/
def hexVal? (c : Char) : Option Nat :=
  let n := c.toNat
  if 48 ≤ n ∧ n ≤ 57 then some (n - 48)
  else if 97 ≤ n ∧ n ≤ 102 then some (n - 87)
  else if 65 ≤ n ∧ n ≤ 70 then some (n - 55)
  else none

/-- Four hex digits. -/
def hex4? : List Char → Option (Nat × List Char)
  | c1 :: c2 :: c3 :: c4 :: rest =>
      match hexVal? c1, hexVal? c2, hexVal? c3, hexVal? c4 with
      | some a, some b, some c, some d => some (((a * 16 + b) * 16 + c) * 16 + d, rest)
      | _, _, _, _ => none
  | _ => none

/-- The body of a JSON string after the opening quote: characters up to the
closing quote, decoding escapes; unescaped control characters are rejected
(strict mode).  Surrogate pairs in `\u` escapes are combined. -/
def jstringAux : Nat → List Char → List Char → Option (String × List Char)
  | 0, _, _ => none
  | _ + 1, _, [] => none
  | fuel + 1, acc, c :: rest =>
      if c = '"' then some (String.mk acc.reverse, rest)
      else if c = '\\' then
        match rest with
        | [] => none
        | e :: rest2 =>
            if e = '"' then jstringAux fuel ('"' :: acc) rest2
            else if e = '\\' then jstringAux fuel ('\\' :: acc) rest2
            else if e = '/' then jstringAux fuel ('/' :: acc) rest2
            else if e = 'b' then jstringAux fuel ('\x08' :: acc) rest2
            else if e = 'f' then jstringAux fuel ('\x0c' :: acc) rest2
            else if e = 'n' then jstringAux fuel ('\n' :: acc) rest2
            else if e = 'r' then jstringAux fuel ('\r' :: acc) rest2
            else if e = 't' then jstringAux fuel ('\t' :: acc) rest2
            else if e = 'u' then
              match hex4? rest2 with
              | none => none
              | some (u, rest3) =>
                  if 0xD800 ≤ u && u ≤ 0xDBFF then
                    match rest3 with
                    | '\\' :: 'u' :: rest4 =>
                        match hex4? rest4 with
                        | some (v, rest5) =>
                            if 0xDC00 ≤ v && v ≤ 0xDFFF then
                              let cp := 0x10000 + (u - 0xD800) * 0x400 + (v - 0xDC00)
                              jstringAux fuel (Char.ofNat cp :: acc) rest5
                            else none
                        | none => none
                    | _ => none
                  else if 0xDC00 ≤ u && u ≤ 0xDFFF then none
                  else jstringAux fuel (Char.ofNat u :: acc) rest3
            else none
      else if c.toNat < 0x20 then none
      else jstringAux fuel (c :: acc) rest

/-- A JSON number starting at `l` (grammar `-?(0|[1-9]\d*)(\.\d+)?([eE][+-]?\d+)?`);
an integer literal yields `JValue.int`, otherwise `JValue.num`. -/
def jnumber? (l : List Char) : Option (JValue × List Char) :=
  let signed : Bool × List Char :=
    match l with
    | '-' :: rest => (true, rest)
    | rest => (false, rest)
  let ip := signed.2.takeWhile Char.isDigit
  let r1 := signed.2.dropWhile Char.isDigit
  if ip.isEmpty then none
  else if ip.length > 1 && ip.headD '0' = '0' then none
  else
    let intVal : Int := if signed.1 then -(digitsToNat ip : Int) else (digitsToNat ip : Int)
    let fracStep : Option (ℚ × Bool × List Char) :=
      match r1 with
      | '.' :: r2 =>
          let fp := r2.takeWhile Char.isDigit
          let r3 := r2.dropWhile Char.isDigit
          if fp.isEmpty then none
          else
            let m := (digitsToNat (ip ++ fp) : ℚ) / (10 : ℚ) ^ fp.length
            some ((if signed.1 then -m else m), true, r3)
      | _ => some ((intVal : ℚ), false, r1)
    match fracStep with
    | none => none
    | some (m, isFrac, r) =>
        match r with
        | 'e' :: r2 | 'E' :: r2 =>
            let es : Bool × List Char :=
              match r2 with
              | '+' :: r3 => (false, r3)
              | '-' :: r3 => (true, r3)
              | r3 => (false, r3)
            let ds := es.2.takeWhile Char.isDigit
            let r4 := es.2.dropWhile Char.isDigit
            if ds.isEmpty then none
            else
              let e : Int := if es.1 then -(digitsToNat ds : Int) else (digitsToNat ds : Int)
              some (JValue.num (m * pow10 e), r4)
        | _ =>
            if isFrac then some (JValue.num m, r) else some (JValue.int intVal, r)

mutual

/-- A JSON value (leading whitespace allowed), returning the rest. -/
def jval : Nat → List Char → Option (JValue × List Char)
  | 0, _ => none
  | fuel + 1, l =>
      match jskipWs l with
      | [] => none
      | c :: rest =>
          if c = 't' then (stripSep? ['r', 'u', 'e'] rest).map (fun r => (JValue.bool true, r))
          else if c = 'f' then
            (stripSep? ['a', 'l', 's', 'e'] rest).map (fun r => (JValue.bool false, r))
          else if c = 'n' then (stripSep? ['u', 'l', 'l'] rest).map (fun r => (JValue.null, r))
          else if c = '"' then
            (jstringAux (rest.length + 1) [] rest).map (fun p => (JValue.str p.1, p.2))
          else if c = '[' then
            match jskipWs rest with
            | ']' :: r2 => some (JValue.arr [], r2)
            | r2 => jarrElems fuel [] r2
          else if c = braceOpen then
            match jskipWs rest with
            | d :: r2 => if d = braceClose then some (JValue.obj [], r2) else jobjItems fuel [] (d :: r2)
            | [] => none
          else jnumber? (c :: rest)

/-- The elements of a JSON array after the first element's start. -/
def jarrElems : Nat → List JValue → List Char → Option (JValue × List Char)
  | 0, _, _ => none
  | fuel + 1, acc, l =>
      match jval fuel l with
      | none => none
      | some (v, r) =>
          match jskipWs r with
          | ',' :: r2 => jarrElems fuel (v :: acc) r2
          | ']' :: r2 => some (JValue.arr (v :: acc).reverse, r2)
          | _ => none

/-- The members of a JSON object after the first key's start (duplicate keys
overwrite in first position, like a Python dict). -/
def jobjItems : Nat → Obj → List Char → Option (JValue × List Char)
  | 0, _, _ => none
  | fuel + 1, acc, l =>
      match jskipWs l with
      | '"' :: r =>
          match jstringAux (r.length + 1) [] r with
          | none => none
          | some (k, r2) =>
              match jskipWs r2 with
              | ':' :: r3 =>
                  match jval fuel r3 with
                  | none => none
                  | some (v, r4) =>
                      match jskipWs r4 with
                      | ',' :: r5 => jobjItems fuel (objSet acc k v) r5
                      | d :: r5 =>
                          if d = braceClose then some (JValue.obj (objSet acc k v), r5) else none
                      | [] => none
              | _ => none
      | _ => none

end

/-- Python `json.loads(s)`: one JSON value with nothing but whitespace after it. -/
def jsonLoads (s : String) : Option JValue :=
  match jval (2 * s.data.length + 8) s.data with
  | some (v, rest) => if (jskipWs rest).isEmpty then some v else none
  | none => none

/-! ## The other format decoders (`data_parser.py`) -/

/-- `SentinelTelemetryParser.field_mapping` (default). -/
def sentinelMappingDefault : List (ℕ × String) :=
  [(0, "timestamp"), (1, "satellites"), (2, "pressure"), (3, "temp"),
   (4, "accel_x"), (5, "accel_y"), (6, "accel_z"),
   (7, "gyro_x"), (8, "gyro_y"), (9, "gyro_z"),
   (10, "latitude"), (11, "longitude"), (12, "alt_gps"), (13, "alt_bmp")]

/-- `SentinelTelemetryParser._convert_value`. -/
def sentinelConvertValue (name value : String) : Option JValue :=
  if name = "timestamp" then some (JValue.str value)
  else if name = "satellites" then (pyInt? value).map JValue.int
  else if name ∈ ["pressure", "temp", "accel_x", "accel_y", "accel_z",
      "gyro_x", "gyro_y", "gyro_z", "latitude", "longitude", "alt_gps", "alt_bmp"] then
    (pyFloat? value).map JValue.num
  else some (JValue.str value)

/-- `SentinelTelemetryParser.validate_format`: non-blank, at least 10
comma-separated fields. -/
def sentinelValidate (raw : String) : Bool :=
  !(pyStrip raw).data.isEmpty && 10 ≤ (pySplit "," (pyStrip raw)).length

/-- `SentinelTelemetryParser.parse`. -/
def sentinelParse (mapping : List (ℕ × String)) (now raw : String) : Option Obj :=
  let s := pyStrip raw
  if sentinelValidate s then
    let parts := pySplit "," s
    let d := parts.enum.foldl
      (fun d iv =>
        match mapping.lookup iv.1 with
        | some name => setOpt d name (sentinelConvertValue name (pyStrip iv.2))
        | none => d) []
    let d := objSet d "_parser" (JValue.str "SENTINEL_TELEMETRY")
    let d := objSet d "_timestamp_parsed" (JValue.str now)
    some (objSet d "_raw_data" (JValue.str s))
  else none

/-- Python slice `l[i:]` (negative index counts from the end, clamped). -/
def pySliceFrom (l : List Char) (i : Int) : List Char :=
  if 0 ≤ i then l.drop i.toNat else l.drop (max 0 ((l.length : Int) + i)).toNat

/-- Python slice `l[:i]` (negative index counts from the end, clamped). -/
def pySliceTo (l : List Char) (i : Int) : List Char :=
  if 0 ≤ i then l.take i.toNat else l.take (max 0 ((l.length : Int) + i)).toNat

/-- `NMEAParser._convert_coordinate`: `DDMM.MMMM` to decimal degrees,
negated for `S`/`W`; any failure (including `int`/`float` `ValueError`)
yields `None`. -/
def convertCoordinate (coord direction : String) : Option ℚ :=
  if coord = "" || direction = "" then none
  else if coord.data.length < 4 then none
  else
    let l := coord.data
    let dm? : Option (Int × ℚ) :=
      if l.contains '.' then
        let pos : Int := (l.findIdx (fun c => c = '.') : Int)
        match pyInt? (String.mk (pySliceTo l (pos - 2))),
              pyFloat? (String.mk (pySliceFrom l (pos - 2))) with
        | some dg, some mins => some (dg, mins)
        | _, _ => none
      else
        match pyInt? (String.mk (pySliceTo l (-2))), pyFloat? (String.mk (pySliceFrom l (-2))) with
        | some dg, some mins => some (dg, mins)
        | _, _ => none
    dm?.map (fun p =>
      let dec := (p.1 : ℚ) + p.2 / 60
      if direction = "S" || direction = "W" then -dec else dec)

/-- The seven GPGGA values of `NMEAParser._parse_gpgga`, or `none` when an
`int`/`float` conversion raises (`ValueError` caught by the handler). -/
def gpggaVals (parts : List String) :
    Option (JValue × JValue × JValue × JValue × JValue × JValue × JValue) :=
  let n := parts.length
  let timeV : JValue := if 1 < n then JValue.str (parts.getD 1 "") else JValue.null
  let latV : JValue :=
    if 3 < n then
      match convertCoordinate (parts.getD 2 "") (parts.getD 3 "") with
      | some q => JValue.num q
      | none => JValue.null
    else JValue.null
  let lonV : JValue :=
    if 5 < n then
      match convertCoordinate (parts.getD 4 "") (parts.getD 5 "") with
      | some q => JValue.num q
      | none => JValue.null
    else JValue.null
  do
    let fixV : JValue ←
      if 6 < n && parts.getD 6 "" ≠ "" then (pyInt? (parts.getD 6 "")).map JValue.int
      else some (JValue.int 0)
    let satV : JValue ←
      if 7 < n && parts.getD 7 "" ≠ "" then (pyInt? (parts.getD 7 "")).map JValue.int
      else some (JValue.int 0)
    let hdopV : JValue ←
      if 8 < n && parts.getD 8 "" ≠ "" then (pyFloat? (parts.getD 8 "")).map JValue.num
      else some JValue.null
    let altV : JValue ←
      if 9 < n && parts.getD 9 "" ≠ "" then (pyFloat? (parts.getD 9 "")).map JValue.num
      else some JValue.null
    pure (timeV, latV, lonV, fixV, satV, hdopV, altV)

/-- `NMEAParser._parse_gpgga`: the seven GPGGA fields as a dict, or the
empty dict when a conversion raised. -/
def gpggaFields (parts : List String) : List (String × JValue) :=
  match gpggaVals parts with
  | some (timeV, latV, lonV, fixV, satV, hdopV, altV) =>
      [("time", timeV), ("latitude", latV), ("longitude", lonV),
       ("fix_quality", fixV), ("satellites", satV), ("hdop", hdopV), ("altitude", altV)]
  | none => []

/-- `NMEAParser.validate_format`: stripped line starts with `$` and the raw
line contains `*`. -/
def nmeaValidate (raw : String) : Bool :=
  pyStartsWith (pyStrip raw) "$" && pyIn "*" raw

/-- `NMEAParser.parse`: base record (note `_raw_data` keeps the *unstripped*
line here), plus the GPGGA fields merged in with `dict.update`. -/
def nmeaParse (now raw : String) : Option Obj :=
  if nmeaValidate raw then
    let parts := pySplit "," (pyStrip raw)
    let sentence := parts.headD ""
    let d : Obj :=
      [("sentence_type", JValue.str sentence),
       ("raw_fields", JValue.arr (parts.map JValue.str)),
       ("_parser", JValue.str "NMEA_GPS"),
       ("_timestamp_parsed", JValue.str now),
       ("_raw_data", JValue.str raw)]
    let d :=
      if sentence = "$GPGGA" then (gpggaFields parts).foldl (fun dd p => objSet dd p.1 p.2) d
      else d
    some d
  else none

/-- `JSONParser.validate_format`: the stripped line loads as JSON. -/
def jsonValidate (raw : String) : Bool := (jsonLoads (pyStrip raw)).isSome

/-- `JSONParser.parse`: load the stripped line; item-assigning the metadata
keys raises `TypeError` unless the loaded value is a dict, and the `except`
then returns `None`. -/
def jsonParse (now raw : String) : Option Obj :=
  match jsonLoads (pyStrip raw) with
  | some (JValue.obj fs) =>
      let d := objSet fs "_parser" (JValue.str "JSON")
      let d := objSet d "_timestamp_parsed" (JValue.str now)
      some (objSet d "_raw_data" (JValue.str raw))
  | some _ => none
  | none => none

/-- `CustomDelimitedParser.validate_format`: the delimiter occurs in the line
(Python's `in`, so the empty delimiter always validates). -/
def customValidate (delimiter raw : String) : Bool := pyIn delimiter raw

/-- `CustomDelimitedParser.parse`: split the stripped line on the delimiter
(`str.split("")` raises `ValueError`, caught by the handler, hence `none`),
name field `i` by `field_names[i]` or `field_i`. -/
def customParse (delimiter : String) (fieldNames : List String) (fmtName : String)
    (now raw : String) : Option Obj :=
  if customValidate delimiter raw then
    if delimiter = "" then none
    else
      let parts := pySplit delimiter (pyStrip raw)
      let d := parts.enum.foldl
        (fun d iv =>
          objSet d (fieldNames.getD iv.1 ("field_" ++ toString iv.1))
            (JValue.str (pyStrip iv.2))) []
      let d := objSet d "_parser" (JValue.str fmtName)
      let d := objSet d "_timestamp_parsed" (JValue.str now)
      some (objSet d "_raw_data" (JValue.str raw))
  else none

/-! ## `DataParserManager` -/

/-- One registered decoder object: the five concrete `DataParserBase`
subclasses of `data_parser.py` with their constructor state. -/
inductive Decoder where
  | armed : Decoder
  | sentinel (mapping : List (ℕ × String)) : Decoder
  | nmea : Decoder
  | json : Decoder
  | custom (delimiter : String) (fieldNames : List String) (fmtName : String) : Decoder

/-- `get_format_name()` of each decoder. -/
def Decoder.formatName : Decoder → String
  | armed => "ARMED_TELEMETRY"
  | sentinel _ => "SENTINEL_TELEMETRY"
  | nmea => "NMEA_GPS"
  | json => "JSON"
  | custom _ _ n => n

/-- `validate_format` of each decoder. -/
def Decoder.validate : Decoder → String → Bool
  | armed, raw => armedValidate raw
  | sentinel _, raw => sentinelValidate raw
  | nmea, raw => nmeaValidate raw
  | json, raw => jsonValidate raw
  | custom delim _ _, raw => customValidate delim raw

/-- `parse` of each decoder (`now` is the wall clock read by
`datetime.now().isoformat()`). -/
def Decoder.decode : Decoder → String → String → Option Obj
  | armed, now, raw => armedParse now raw
  | sentinel mapping, now, raw => sentinelParse mapping now raw
  | nmea, now, raw => nmeaParse now raw
  | json, now, raw => jsonParse now raw
  | custom delim names fmtName, now, raw => customParse delim names fmtName now raw

/-- `DataParserManager` state: the registered decoders in registration order,
the pinned decoder, the auto-detect flag, and the number of registered data
callbacks (the callbacks themselves do not affect the returned record). -/
structure Manager where
  decoders : List Decoder
  activeDecoder : Option Decoder
  autoDetect : Bool
  callbackCount : ℕ

/-- `DataParserManager.__init__`: the four default decoders in registration
order ARMED, SENTINEL, NMEA, JSON; auto-detection on. -/
def defaultManager : Manager :=
  ⟨[Decoder.armed, Decoder.sentinel sentinelMappingDefault, Decoder.nmea, Decoder.json],
    none, true, 0⟩

/-- `DataParserManager.register_parser`: append. -/
def registerDecoder (m : Manager) (p : Decoder) : Manager :=
  { m with decoders := m.decoders ++ [p] }

/-- `DataParserManager.set_active_parser`: pin the first decoder with the
given format name and disable auto-detection, returning `True`; an unknown
name returns `False` and changes nothing. -/
def setActiveDecoder (m : Manager) (name : String) : Bool × Manager :=
  match m.decoders.find? (fun p => p.formatName = name) with
  | some p => (true, { m with activeDecoder := some p, autoDetect := false })
  | none => (false, m)

/-- `DataParserManager.enable_auto_detection`. -/
def enableAutoDetection (m : Manager) : Manager :=
  { m with autoDetect := true, activeDecoder := none }

/-- The auto-detection loop of `DataParserManager.parse_data`: try each
decoder in order; a decoder whose `validate_format` answers yes assigns
`parsed_data` with its `parse` result, and only a *truthy* result (a
non-empty record) breaks the loop.  `acc` is the current value of the
`parsed_data` variable. -/
def parseAuto (now raw : String) : Option Obj → List Decoder → Option Obj
  | acc, [] => acc
  | acc, p :: ps =>
      if p.validate raw then
        match p.decode now raw with
        | some r => if jtruthy r then some r else parseAuto now raw (some r) ps
        | none => parseAuto now raw none ps
      else parseAuto now raw acc ps

/-- `DataParserManager.parse_data`: blank lines yield nothing; auto-detect
runs the loop, otherwise the pinned decoder parses (or nothing is produced).
The data callbacks are invoked on a truthy result but cannot change it. -/
def parseData (m : Manager) (now raw : String) : Option Obj :=
  if (pyStrip raw).data.isEmpty then none
  else if m.autoDetect then parseAuto now raw none m.decoders
  else
    match m.activeDecoder with
    | some p => p.decode now raw
    | none => none

/-- `process_serial_data`: parse, then annotate a truthy record with the
originating port. -/
def processSerialData (m : Manager) (port now raw : String) : Option Obj :=
  match parseData m now raw with
  | some r => if jtruthy r then some (objSet r "_source_port" (JValue.str port)) else some r
  | none => none

/-! ## `handle_serial_command` (`websocket_server.py`)

The handler's observable output is the response envelope it returns.  The
serial-manager calls are side effects of an external collaborator and are
supplied as an oracle environment; the parser-manager / sensor-fusion
reconfiguration side effects do not influence the returned envelope and are
not threaded through. -/

/-- Results of the `serial_manager` operations a command may invoke. -/
structure SerialEnv where
  listPorts : JValue
  openPort : JValue → JValue → Bool
  closePort : JValue → Bool
  writePort : JValue → JValue → Bool
  writePortLine : JValue → JValue → Bool
  readPort : JValue → Option JValue → Option String
  readPortLine : JValue → Option String
  isPortOpen : JValue → Bool
  portInfo : JValue → Option JValue
  closeAllPorts : Bool

/-- A trivial oracle environment, used to instantiate theorems about the
handler at concrete inputs. -/
def envNull : SerialEnv :=
  ⟨JValue.null, fun _ _ => false, fun _ => false, fun _ _ => false, fun _ _ => false,
   fun _ _ => none, fun _ => none, fun _ => false, fun _ => none, false⟩

/-- Python falsiness of `message.get(k)` (`if not port:`). -/
def jfalsy : Option JValue → Bool
  | none => true
  | some JValue.null => true
  | some (JValue.bool b) => !b
  | some (JValue.int n) => n = 0
  | some (JValue.num q) => q = 0
  | some (JValue.str s) => s = ""
  | some (JValue.arr xs) => xs.isEmpty
  | some (JValue.obj fs) => fs.isEmpty

/-- Python `x is None` for `message.get(k)`. -/
def jisNone : Option JValue → Bool
  | none => true
  | some JValue.null => true
  | _ => false

/-- Python `str(v)` as interpolated into f-strings.  Only the string case is
exercised by any claim; numbers render via `toString` and containers as
placeholders (Python's exact `repr` of floats and containers is not
modelled). -/
def pyFormatVal : JValue → String
  | JValue.null => "None"
  | JValue.bool true => "True"
  | JValue.bool false => "False"
  | JValue.int n => toString n
  | JValue.num q => toString q
  | JValue.str s => s
  | JValue.arr _ => "[...]"
  | JValue.obj _ => "\x7b...\x7d"

/-- The error-response envelope every argument-validation failure returns:
`{id, type, command, success: False, error}`. -/
def errResp (requestId : JValue) (command errText : String) : Obj :=
  [("id", requestId), ("type", JValue.str "response"), ("command", JValue.str command),
   ("success", JValue.bool false), ("error", JValue.str errText)]

/-- `DataParserManager.get_parser_info`. -/
def managerInfo (m : Manager) : JValue :=
  JValue.obj
    [("available_parsers", JValue.arr (m.decoders.map (fun p => JValue.str p.formatName))),
     ("active_parser",
       match m.activeDecoder with
       | some p => JValue.str p.formatName
       | none => JValue.null),
     ("auto_detect", JValue.bool m.autoDetect),
     ("callback_count", JValue.int m.callbackCount)]

/-- Python's `ValueError` text for `int(k)` on a non-numeric string, as
`str(e)` embeds it (`repr` of keys without special characters). -/
def intErrText (k : String) : String :=
  "invalid literal for int() with base 10: '" ++ k ++ "'"

/-- The `else` branch: `{id, type, command, success: False,
error: f"Unknown command: {command}"}`. -/
def unknownResp (requestId commandVal : JValue) : Obj :=
  [("id", requestId), ("type", JValue.str "response"), ("command", commandVal),
   ("success", JValue.bool false),
   ("error", JValue.str ("Unknown command: " ++ pyFormatVal commandVal))]

/-- The `if command == "..."` chain of `handle_serial_command` for a string
command `c` (a non-string command value matches no branch and falls through
to `unknownResp`). -/
def handleNamed (env : SerialEnv) (m : Manager) (msg : Obj) (requestId : JValue)
    (c : String) : Obj :=
  if c = "list_ports" then
    [("id", requestId), ("type", JValue.str "response"), ("command", JValue.str c),
     ("success", JValue.bool true), ("data", env.listPorts)]
  else if c = "open_port" then
    let port := objGet msg "port"
    let baudrate := (objGet msg "baudrate").getD (JValue.int 9600)
    if jfalsy port then errResp requestId c "Port parameter is required"
    else
      [("id", requestId), ("type", JValue.str "response"), ("command", JValue.str c),
       ("success", JValue.bool (env.openPort (port.getD JValue.null) baudrate)),
       ("port", port.getD JValue.null), ("baudrate", baudrate)]
  else if c = "close_port" then
    let port := objGet msg "port"
    if jfalsy port then errResp requestId c "Port parameter is required"
    else
      [("id", requestId), ("type", JValue.str "response"), ("command", JValue.str c),
       ("success", JValue.bool (env.closePort (port.getD JValue.null))),
       ("port", port.getD JValue.null)]
  else if c = "write_port" then
    let port := objGet msg "port"
    let dataV := objGet msg "data"
    if jfalsy port || jisNone dataV then
      errResp requestId c "Port and data parameters are required"
    else
      [("id", requestId), ("type", JValue.str "response"), ("command", JValue.str c),
       ("success", JValue.bool (env.writePort (port.getD JValue.null) (dataV.getD JValue.null))),
       ("port", port.getD JValue.null), ("data", dataV.getD JValue.null)]
  else if c = "write_port_line" then
    let port := objGet msg "port"
    let dataV := objGet msg "data"
    if jfalsy port || jisNone dataV then
      errResp requestId c "Port and data parameters are required"
    else
      [("id", requestId), ("type", JValue.str "response"), ("command", JValue.str c),
       ("success", JValue.bool (env.writePortLine (port.getD JValue.null) (dataV.getD JValue.null))),
       ("port", port.getD JValue.null), ("data", dataV.getD JValue.null)]
  else if c = "read_port" then
    let port := objGet msg "port"
    let numBytes := objGet msg "num_bytes"
    if jfalsy port then errResp requestId c "Port parameter is required"
    else
      let dataR := env.readPort (port.getD JValue.null) numBytes
      [("id", requestId), ("type", JValue.str "response"), ("command", JValue.str c),
       ("success", JValue.bool dataR.isSome), ("port", port.getD JValue.null),
       ("data", match dataR with | some s => JValue.str s | none => JValue.null)]
  else if c = "read_port_line" then
    let port := objGet msg "port"
    if jfalsy port then errResp requestId c "Port parameter is required"
    else
      let dataR := env.readPortLine (port.getD JValue.null)
      [("id", requestId), ("type", JValue.str "response"), ("command", JValue.str c),
       ("success", JValue.bool dataR.isSome), ("port", port.getD JValue.null),
       ("data", match dataR with | some s => JValue.str s | none => JValue.null)]
  else if c = "is_port_open" then
    let port := objGet msg "port"
    if jfalsy port then errResp requestId c "Port parameter is required"
    else
      [("id", requestId), ("type", JValue.str "response"), ("command", JValue.str c),
       ("success", JValue.bool true), ("port", port.getD JValue.null),
       ("is_open", JValue.bool (env.isPortOpen (port.getD JValue.null)))]
  else if c = "get_port_info" then
    let port := objGet msg "port"
    if jfalsy port then errResp requestId c "Port parameter is required"
    else
      let info := env.portInfo (port.getD JValue.null)
      [("id", requestId), ("type", JValue.str "response"), ("command", JValue.str c),
       ("success", JValue.bool info.isSome), ("port", port.getD JValue.null),
       ("info", info.getD JValue.null)]
  else if c = "close_all_ports" then
    [("id", requestId), ("type", JValue.str "response"), ("command", JValue.str c),
     ("success", JValue.bool env.closeAllPorts)]
  else if c = "get_parser_info" then
    [("id", requestId), ("type", JValue.str "response"), ("command", JValue.str c),
     ("success", JValue.bool true), ("data", managerInfo m)]
  else if c = "set_active_parser" then
    let nameV := objGet msg "parser_name"
    if jfalsy nameV then errResp requestId c "parser_name parameter is required"
    else
      let success :=
        match nameV with
        | some (JValue.str s) => (setActiveDecoder m s).1
        | _ => false
      [("id", requestId), ("type", JValue.str "response"), ("command", JValue.str c),
       ("success", JValue.bool success), ("parser_name", nameV.getD JValue.null)]
  else if c = "enable_auto_detection" then
    [("id", requestId), ("type", JValue.str "response"), ("command", JValue.str c),
     ("success", JValue.bool true)]
  else if c = "add_custom_parser" then
    let delimiter := objGet msg "delimiter"
    let fieldNames := (objGet msg "field_names").getD (JValue.arr [])
    let nameV := objGet msg "parser_name"
    if jfalsy delimiter then errResp requestId c "delimiter parameter is required"
    else
      [("id", requestId), ("type", JValue.str "response"), ("command", JValue.str c),
       ("success", JValue.bool true), ("delimiter", delimiter.getD JValue.null),
       ("field_names", fieldNames), ("parser_name", nameV.getD JValue.null)]
  else if c = "configure_sentinel_parser" then
    let fm := (objGet msg "field_mapping").getD (JValue.obj [])
    match fm with
    | JValue.obj fs =>
        match fs.find? (fun p => (pyInt? p.1).isNone) with
        | some bad => errResp requestId c (intErrText bad.1)
        | none =>
            [("id", requestId), ("type", JValue.str "response"), ("command", JValue.str c),
             ("success", JValue.bool true),
             ("field_mapping",
               JValue.obj (fs.foldl
                 (fun acc p => objSet acc (toString ((pyInt? p.1).getD 0)) p.2) []))]
    | _ =>
        errResp requestId c "'field_mapping' items are not available"
  else if c = "configure_sensor_fusion" then
    [("id", requestId), ("type", JValue.str "response"), ("command", JValue.str c),
     ("success", JValue.bool true),
     ("message", JValue.str "Sensor fusion configured successfully")]
  else if c = "reset_sensor_fusion" then
    [("id", requestId), ("type", JValue.str "response"), ("command", JValue.str c),
     ("success", JValue.bool true),
     ("message", JValue.str "Sensor fusion reset successfully")]
  else unknownResp requestId (JValue.str c)

/-- `handle_serial_command(message)`: read `command` and `id` (default
`"unknown"`), then dispatch.  A non-string `command` value fails every
comparison of the `if`/`elif` chain and reaches the `else` branch. -/
def handleSerialCommand (env : SerialEnv) (m : Manager) (msg : Obj) : Obj :=
  let requestId := (objGet msg "id").getD (JValue.str "unknown")
  match objGet msg "command" with
  | some (JValue.str c) => handleNamed env m msg requestId c
  | other => unknownResp requestId (other.getD JValue.null)

end Sentinel

/-! ## `sensor_fusion.py` — the Madgwick/complementary fusion engine

Float arithmetic is modelled over `ℝ`.  NumPy's silent division of a vector
by a zero norm produces NaN components, which no real number models: those
branches return `none` (and the Python state poisoned by NaNs is not
represented).  Every other operation is exact real arithmetic. -/

namespace Sentinel

noncomputable section

/-- A quaternion as the 4-array `[w, x, y, z]` the filter holds. -/
structure Quat where
  w : ℝ
  x : ℝ
  y : ℝ
  z : ℝ

/-- A 3-vector of sensor components. -/
structure V3 where
  x : ℝ
  y : ℝ
  z : ℝ

/-- `MadgwickFilter._quaternion_multiply`. -/
def qmul (a b : Quat) : Quat :=
  ⟨a.w * b.w - a.x * b.x - a.y * b.y - a.z * b.z,
   a.w * b.x + a.x * b.w + a.y * b.z - a.z * b.y,
   a.w * b.y - a.x * b.z + a.y * b.w + a.z * b.x,
   a.w * b.z + a.x * b.y - a.y * b.x + a.z * b.w⟩

/-- `MadgwickFilter._quaternion_conjugate`. -/
def qconj (q : Quat) : Quat := ⟨q.w, -q.x, -q.y, -q.z⟩

/-- `np.linalg.norm` of a quaternion-shaped 4-array. -/
def qnorm (q : Quat) : ℝ := Real.sqrt (q.w ^ 2 + q.x ^ 2 + q.y ^ 2 + q.z ^ 2)

/-- `np.linalg.norm` of a 3-vector. -/
def v3norm (v : V3) : ℝ := Real.sqrt (v.x ^ 2 + v.y ^ 2 + v.z ^ 2)

/-- `np.arctan2` / `math.atan2`, via the complex argument: range `(-π, π]`,
and `atan2 0 0 = 0` exactly as in NumPy/CPython. -/
def atan2 (y x : ℝ) : ℝ := Complex.arg ⟨x, y⟩

/-- `math.radians`. -/
def radians (x : ℝ) : ℝ := x * Real.pi / 180

/-- `math.degrees`. -/
def degrees (x : ℝ) : ℝ := x * 180 / Real.pi

/-- C `fmod` (`np.fmod`): remainder with the sign of the dividend
(truncated-quotient remainder). -/
def pyFmod (x y : ℝ) : ℝ :=
  x - y * ((if x / y < 0 then ⌈x / y⌉ else ⌊x / y⌋) : ℤ)

/-- The body of `MadgwickFilter.update` with the integration time step as a
parameter: in the source the step multiplying `qDot` is `self.sample_period`
(line `q = q + qDot * self.sample_period`); the specification instead
prescribes the inter-sample `dt`, and the claim about that is settled by
instantiating `step` accordingly.  Zero accelerometer returns the quaternion
unchanged (the early `return`); a zero-norm corrective step or a zero-norm
integrated quaternion makes NumPy divide by zero (NaN), modelled as `none`. -/
def madgwickCore (step beta : ℝ) (q : Quat) (gyro accel : V3) (mag : Option V3) :
    Option Quat :=
  if v3norm accel = 0 then some q
  else
    let na := v3norm accel
    let a : V3 := ⟨accel.x / na, accel.y / na, accel.z / na⟩
    let stepVec : Quat :=
      match mag with
      | some m0 =>
          if 0 < v3norm m0 then
            let nm := v3norm m0
            let m : V3 := ⟨m0.x / nm, m0.y / nm, m0.z / nm⟩
            let h := qmul q (qmul ⟨0, m.x, m.y, m.z⟩ (qconj q))
            let b1 := Real.sqrt (h.x ^ 2 + h.y ^ 2)
            let b3 := h.z
            let F1 := 2 * (q.x * q.z - q.w * q.y) - a.x
            let F2 := 2 * (q.w * q.x + q.y * q.z) - a.y
            let F3 := 2 * (0.5 - q.x ^ 2 - q.y ^ 2) - a.z
            let F4 := 2 * b1 * (0.5 - q.y ^ 2 - q.z ^ 2) + 2 * b3 * (q.x * q.z - q.w * q.y) - m.x
            let F5 := 2 * b1 * (q.x * q.y - q.w * q.z) + 2 * b3 * (q.w * q.x + q.y * q.z) - m.y
            let F6 := 2 * b1 * (q.w * q.y + q.x * q.z) + 2 * b3 * (0.5 - q.x ^ 2 - q.y ^ 2) - m.z
            ⟨(-2 * q.y) * F1 + (2 * q.x) * F2 + (-2 * b3 * q.y) * F4 +
               (-2 * b1 * q.z + 2 * b3 * q.x) * F5 + (2 * b1 * q.y) * F6,
             (2 * q.z) * F1 + (2 * q.w) * F2 + (-4 * q.x) * F3 + (2 * b3 * q.z) * F4 +
               (2 * b1 * q.y + 2 * b3 * q.w) * F5 + (2 * b1 * q.z - 4 * b3 * q.x) * F6,
             (-2 * q.w) * F1 + (2 * q.z) * F2 + (-4 * q.y) * F3 +
               (-4 * b1 * q.y - 2 * b3 * q.w) * F4 + (2 * b1 * q.x + 2 * b3 * q.z) * F5 +
               (2 * b1 * q.w - 4 * b3 * q.y) * F6,
             (2 * q.x) * F1 + (2 * q.y) * F2 + (-4 * b1 * q.z + 2 * b3 * q.x) * F4 +
               (-2 * b1 * q.w + 2 * b3 * q.y) * F5 + (2 * b1 * q.x) * F6⟩
          else
            let F1 := 2 * (q.x * q.z - q.w * q.y) - a.x
            let F2 := 2 * (q.w * q.x + q.y * q.z) - a.y
            let F3 := 2 * (0.5 - q.x ^ 2 - q.y ^ 2) - a.z
            ⟨(-2 * q.y) * F1 + (2 * q.x) * F2,
             (2 * q.z) * F1 + (2 * q.w) * F2 + (-4 * q.x) * F3,
             (-2 * q.w) * F1 + (2 * q.z) * F2 + (-4 * q.y) * F3,
             (2 * q.x) * F1 + (2 * q.y) * F2⟩
      | none =>
          let F1 := 2 * (q.x * q.z - q.w * q.y) - a.x
          let F2 := 2 * (q.w * q.x + q.y * q.z) - a.y
          let F3 := 2 * (0.5 - q.x ^ 2 - q.y ^ 2) - a.z
          ⟨(-2 * q.y) * F1 + (2 * q.x) * F2,
           (2 * q.z) * F1 + (2 * q.w) * F2 + (-4 * q.x) * F3,
           (-2 * q.w) * F1 + (2 * q.z) * F2 + (-4 * q.y) * F3,
           (2 * q.x) * F1 + (2 * q.y) * F2⟩
    let sn := qnorm stepVec
    if sn = 0 then none
    else
      let s : Quat := ⟨stepVec.w / sn, stepVec.x / sn, stepVec.y / sn, stepVec.z / sn⟩
      let g := qmul q ⟨0, gyro.x, gyro.y, gyro.z⟩
      let qDot : Quat := ⟨0.5 * g.w - beta * s.w, 0.5 * g.x - beta * s.x,
                          0.5 * g.y - beta * s.y, 0.5 * g.z - beta * s.z⟩
      let qi : Quat := ⟨q.w + qDot.w * step, q.x + qDot.x * step,
                        q.y + qDot.y * step, q.z + qDot.z * step⟩
      let qn := qnorm qi
      if qn = 0 then none
      else some ⟨qi.w / qn, qi.x / qn, qi.y / qn, qi.z / qn⟩

/-- `MadgwickFilter.get_euler_angles`: roll/pitch/yaw in radians. -/
def eulerOf (q : Quat) : ℝ × ℝ × ℝ :=
  let roll := atan2 (2 * (q.w * q.x + q.y * q.z)) (1 - 2 * (q.x ^ 2 + q.y ^ 2))
  let sinp := 2 * (q.w * q.y - q.z * q.x)
  let pitch :=
    if 1 ≤ |sinp| then (if sinp < 0 then -(Real.pi / 2) else Real.pi / 2)
    else Real.arcsin sinp
  let yaw := atan2 (2 * (q.w * q.z + q.x * q.y)) (1 - 2 * (q.y ^ 2 + q.z ^ 2))
  (roll, pitch, yaw)

/-- `ComplementaryFilter` state. -/
structure Comp where
  alpha : ℝ
  roll : ℝ
  pitch : ℝ

/-- `ComplementaryFilter.update`. -/
def compUpdate (f : Comp) (accel gyro : V3) (dt : ℝ) : Comp :=
  let accelRoll := atan2 accel.y accel.z
  let accelPitch := atan2 (-accel.x) (Real.sqrt (accel.y ^ 2 + accel.z ^ 2))
  let roll1 := f.roll + gyro.x * dt
  let pitch1 := f.pitch + gyro.y * dt
  let roll2 := f.alpha * roll1 + (1 - f.alpha) * accelRoll
  let pitch2 := f.alpha * pitch1 + (1 - f.alpha) * accelPitch
  ⟨f.alpha, pyFmod (roll2 + Real.pi) (2 * Real.pi) - Real.pi,
   max (-(Real.pi / 2)) (min (Real.pi / 2) pitch2)⟩

/-- An `IMUData` sample (accel m/s², gyro deg/s, mag µT, timestamp s). -/
structure IMUData where
  accelX : ℝ
  accelY : ℝ
  accelZ : ℝ
  gyroX : ℝ
  gyroY : ℝ
  gyroZ : ℝ
  magX : ℝ
  magY : ℝ
  magZ : ℝ
  timestamp : ℝ

/-- An `Orientation` produced by the engine (degrees; the quaternion is
always attached by `process_imu_data`). -/
structure Orientation where
  roll : ℝ
  pitch : ℝ
  yaw : ℝ
  quaternion : Quat

instance : Inhabited Orientation := ⟨⟨0, 0, 0, ⟨1, 0, 0, 0⟩⟩⟩

/-- `SensorFusion` state.  `samplePeriod` is `self.sample_period`, also held
by the embedded `MadgwickFilter`; `madgwickBeta`/`madgwickQ` are the
embedded filter's gain and quaternion. -/
structure Fusion where
  useMagnetometer : Bool
  samplePeriod : ℝ
  madgwickBeta : ℝ
  madgwickQ : Quat
  comp : Comp
  accelOffset : V3
  gyroOffset : V3
  magOffset : V3
  magScale : V3
  history : List Orientation
  historySize : ℕ
  lastUpdateTime : Option ℝ
  isCalibrated : Bool

/-- `SensorFusion()` with the default constructor arguments
(`use_magnetometer=True, sample_rate=10.0, madgwick_beta=0.1,
complementary_alpha=0.98`). -/
def initialFusion : Fusion :=
  ⟨true, 1 / 10, 1 / 10, ⟨1, 0, 0, 0⟩, ⟨98 / 100, 0, 0⟩,
   ⟨0, 0, 0⟩, ⟨0, 0, 0⟩, ⟨0, 0, 0⟩, ⟨1, 1, 1⟩, [], 5, none, false⟩

/-- Element `i` of `np.linspace(0.5, 1.0, n)` (for the `n = 1` edge NumPy
yields `[0.5]`, which the formula also gives since `x / 0 = 0` here). -/
def linWeight (n i : ℕ) : ℝ := 0.5 + 0.5 * i / ((n : ℝ) - 1)

/-- `weights.sum()`. -/
def weightSum (n : ℕ) : ℝ := ∑ i in Finset.range n, linWeight n i

/-- `SensorFusion._smooth_orientation`: append to the history, drop the
oldest entry past the window, return the raw orientation until 3 entries
exist, otherwise the linearly-weighted mean (yaw via the sin/cos mean),
keeping the latest quaternion.  Returns the reported orientation and the new
history. -/
def smoothOrientation (s : Fusion) (o : Orientation) : Orientation × List Orientation :=
  let hist0 := s.history ++ [o]
  let hist := if s.historySize < hist0.length then hist0.drop 1 else hist0
  if hist.length < 3 then (o, hist)
  else
    let n := hist.length
    let nw := weightSum n
    let rollAvg := ∑ i in Finset.range n, (hist.getD i default).roll * (linWeight n i / nw)
    let pitchAvg := ∑ i in Finset.range n, (hist.getD i default).pitch * (linWeight n i / nw)
    let ysin := ∑ i in Finset.range n,
      Real.sin (radians (hist.getD i default).yaw) * (linWeight n i / nw)
    let ycos := ∑ i in Finset.range n,
      Real.cos (radians (hist.getD i default).yaw) * (linWeight n i / nw)
    let yawAvg0 := degrees (atan2 ysin ycos)
    let yawAvg := if yawAvg0 < 0 then yawAvg0 + 360 else yawAvg0
    (⟨rollAvg, pitchAvg, yawAvg, o.quaternion⟩, hist)

/-- `SensorFusion.process_imu_data`: subtract the calibration offsets,
convert the gyro to rad/s, scale the magnetometer (used only when enabled
and not all-zero), compute `dt` from the timestamps, run the Madgwick update
(which integrates with `samplePeriod`, see `madgwickCore`), update the
complementary filter with `dt`, convert to degrees (yaw into `[0, 360)`),
smooth, and return the orientation with the advanced state.  `none` models
the NaN poisoning of a zero-norm division inside the Madgwick step: the
source raises no exception there but returns an orientation whose angles
(and whose quaternion) are all NaN — over `ℝ` no value represents NaN, so
the model collapses such a run to `none` instead of producing numbers the
source does not compute. -/
def processImuData (s : Fusion) (d : IMUData) : Option (Orientation × Fusion) :=
  let accel : V3 := ⟨d.accelX - s.accelOffset.x, d.accelY - s.accelOffset.y,
                     d.accelZ - s.accelOffset.z⟩
  let gyro : V3 := ⟨radians (d.gyroX - s.gyroOffset.x), radians (d.gyroY - s.gyroOffset.y),
                    radians (d.gyroZ - s.gyroOffset.z)⟩
  let mag : Option V3 :=
    if s.useMagnetometer ∧ (d.magX ≠ 0 ∨ d.magY ≠ 0 ∨ d.magZ ≠ 0) then
      some ⟨(d.magX - s.magOffset.x) / s.magScale.x, (d.magY - s.magOffset.y) / s.magScale.y,
            (d.magZ - s.magOffset.z) / s.magScale.z⟩
    else none
  let dt : ℝ :=
    match s.lastUpdateTime with
    | none => s.samplePeriod
    | some t0 => max (d.timestamp - t0) 0.001
  match madgwickCore s.samplePeriod s.madgwickBeta s.madgwickQ gyro accel mag with
  | none => none
  | some q' =>
      let e := eulerOf q'
      let comp' := compUpdate s.comp accel gyro dt
      let rollDeg := degrees e.1
      let pitchDeg := degrees e.2.1
      let yawDeg0 := degrees e.2.2
      let yawDeg := if yawDeg0 < 0 then yawDeg0 + 360 else yawDeg0
      let o : Orientation := ⟨rollDeg, pitchDeg, yawDeg, q'⟩
      let sm := smoothOrientation s o
      some (sm.1, { s with madgwickQ := q', comp := comp', history := sm.2,
                           lastUpdateTime := some d.timestamp })

/-- Modelled from the spec: step 3–4 of §4.3 prescribe integrating the
quaternion derivative over `dt = clamp(ts − last_ts, ≥ 0.001)` (the nominal
sample period when `last_ts` is none).  Identical preprocessing to
`processImuData`, but the Madgwick integration step is that `dt`.  Used to
compare the claimed behaviour with the code's. -/
def processImuQuatSpecDt (s : Fusion) (d : IMUData) : Option Quat :=
  let accel : V3 := ⟨d.accelX - s.accelOffset.x, d.accelY - s.accelOffset.y,
                     d.accelZ - s.accelOffset.z⟩
  let gyro : V3 := ⟨radians (d.gyroX - s.gyroOffset.x), radians (d.gyroY - s.gyroOffset.y),
                    radians (d.gyroZ - s.gyroOffset.z)⟩
  let mag : Option V3 :=
    if s.useMagnetometer ∧ (d.magX ≠ 0 ∨ d.magY ≠ 0 ∨ d.magZ ≠ 0) then
      some ⟨(d.magX - s.magOffset.x) / s.magScale.x, (d.magY - s.magOffset.y) / s.magScale.y,
            (d.magZ - s.magOffset.z) / s.magScale.z⟩
    else none
  let dt : ℝ :=
    match s.lastUpdateTime with
    | none => s.samplePeriod
    | some t0 => max (d.timestamp - t0) 0.001
  madgwickCore dt s.madgwickBeta s.madgwickQ gyro accel mag

/-- The mean of a per-sample quantity (`np.mean`). -/
def sampleMean (f : IMUData → ℝ) (samples : List IMUData) : ℝ :=
  (samples.map f).sum / samples.length

/-- The maximum of a per-sample quantity (`np.max(..., axis=0)`; the call
site guarantees a non-empty list). -/
def sampleMax (f : IMUData → ℝ) (samples : List IMUData) : ℝ :=
  ((samples.map f).max?).getD 0

/-- The minimum of a per-sample quantity. -/
def sampleMin (f : IMUData → ℝ) (samples : List IMUData) : ℝ :=
  ((samples.map f).min?).getD 0

/-- `mag_scale[mag_scale == 0] = 1`, componentwise. -/
def fixZeroScale (v : ℝ) : ℝ := if v = 0 then 1 else v

/-- `SensorFusion.calibrate`: fewer than 10 samples is an early return;
otherwise, when stationary, the gyro bias is the mean gyro reading and the
accel bias the mean accel reading with the mean accel magnitude subtracted
from its z-component; the magnetometer hard-iron offset/scale come from the
componentwise max/min when enabled and the mag data is not all zero; finally
`is_calibrated` is set. -/
def calibrate (s : Fusion) (samples : List IMUData) (stationary : Bool) : Fusion :=
  if samples.length < 10 then s
  else
    let s1 :=
      if stationary then
        let accelMag :=
          (samples.map (fun d => Real.sqrt (d.accelX ^ 2 + d.accelY ^ 2 + d.accelZ ^ 2))).sum /
            samples.length
        { s with
          gyroOffset := ⟨sampleMean (fun d => d.gyroX) samples,
                         sampleMean (fun d => d.gyroY) samples,
                         sampleMean (fun d => d.gyroZ) samples⟩,
          accelOffset := ⟨sampleMean (fun d => d.accelX) samples,
                          sampleMean (fun d => d.accelY) samples,
                          sampleMean (fun d => d.accelZ) samples - accelMag⟩ }
      else s
    let s2 :=
      if s1.useMagnetometer ∧
          ¬(∀ d ∈ samples, d.magX = 0 ∧ d.magY = 0 ∧ d.magZ = 0) then
        { s1 with
          magOffset := ⟨(sampleMax (fun d => d.magX) samples + sampleMin (fun d => d.magX) samples) / 2,
                        (sampleMax (fun d => d.magY) samples + sampleMin (fun d => d.magY) samples) / 2,
                        (sampleMax (fun d => d.magZ) samples + sampleMin (fun d => d.magZ) samples) / 2⟩,
          magScale := ⟨fixZeroScale ((sampleMax (fun d => d.magX) samples - sampleMin (fun d => d.magX) samples) / 2),
                       fixZeroScale ((sampleMax (fun d => d.magY) samples - sampleMin (fun d => d.magY) samples) / 2),
                       fixZeroScale ((sampleMax (fun d => d.magZ) samples - sampleMin (fun d => d.magZ) samples) / 2)⟩ }
      else s1
    { s2 with isCalibrated := true }

/-- `SensorFusion.reset`. -/
def fusionReset (s : Fusion) : Fusion :=
  { s with madgwickQ := ⟨1, 0, 0, 0⟩, comp := ⟨s.comp.alpha, 0, 0⟩,
           history := [], lastUpdateTime := none }

/-- The angle ranges of §3 of the specification: roll in `(-180, 180]`,
pitch in `[-90, 90]`, yaw in `[0, 360)` degrees. -/
def orientationInRange (o : Orientation) : Prop :=
  -180 < o.roll ∧ o.roll ≤ 180 ∧ -90 ≤ o.pitch ∧ o.pitch ≤ 90 ∧ 0 ≤ o.yaw ∧ o.yaw < 360

/-- Every orientation in the smoothing history is in range (an invariant of
reachable fusion states: the history only ever receives raw orientations). -/
def historyInRange (s : Fusion) : Prop := ∀ o ∈ s.history, orientationInRange o

/-- The inter-sample time step of §4.3 step 3:
`dt = max(ts - last_ts, 0.001)`, or the nominal sample period when
`last_ts` is none.  (In the source this value is computed in
`process_imu_data` and passed to the complementary filter only.) -/
def dtSpec (last : Option ℝ) (ts nominal : ℝ) : ℝ :=
  match last with
  | none => nominal
  | some t0 => max (ts - t0) 0.001

/-- A sample with zero accelerometer reading: the Madgwick early return
leaves the quaternion unchanged, while `last_update_time` is still set. -/
def imuZero : IMUData := ⟨0, 0, 0, 0, 0, 0, 0, 0, 0, 0⟩

/-- A later sample (timestamp 5 s) with a pure-x accelerometer reading. -/
def imuStep5 : IMUData := ⟨1, 0, 0, 0, 0, 0, 0, 0, 0, 5⟩

/-- A perfectly stationary, uncalibrated sample: accel `(0, 0, 9.81)` m/s²,
zero gyro, zero (hence unused) magnetometer. -/
def imuStationary : IMUData := ⟨0, 0, 9.81, 0, 0, 0, 0, 0, 0, 0⟩

/-- The fusion state after processing `imuZero` from the initial state. -/
def fusionAfterZero : Fusion :=
  { initialFusion with lastUpdateTime := some 0,
                       history := [⟨0, 0, 0, ⟨1, 0, 0, 0⟩⟩] }

end

/-! ## Theorems -/

/-- `objGet` after `objSet` at the written key. -/
theorem objGet_objSet_self (d : Obj) (k : String) (v : JValue) :
    objGet (objSet d k v) k = some v := by
  induction d with
  | nil => simp [objSet, objGet, List.find?]
  | cons p rest ih =>
      by_cases h : p.1 = k
      · simp [objSet, h, objGet, List.find?]
      · simpa [objSet, h, objGet, List.find?] using ih

/-- `objGet` after `objSet` at another key. -/
theorem objGet_objSet_ne (d : Obj) {k k' : String} (v : JValue) (h : k' ≠ k) :
    objGet (objSet d k v) k' = objGet d k' := by
  have h2 : ¬(k = k') := fun e => h e.symm
  induction d with
  | nil => simp [objSet, objGet, List.find?, h2]
  | cons p rest ih =>
      obtain ⟨pk, pv⟩ := p
      by_cases hp : pk = k
      · subst hp
        simp [objSet, objGet, List.find?, h2]
      · by_cases hp' : pk = k'
        · simp [objSet, hp, objGet, List.find?, hp', h]
        · simpa [objSet, hp, objGet, List.find?, hp'] using ih

/-- `objGet` after `setOpt` at the written key. -/
theorem objGet_setOpt_self (d : Obj) (k : String) (v? : Option JValue) :
    objGet (setOpt d k v?) k = v?.or (objGet d k) := by
  cases v? with
  | some v => simp [setOpt, objGet_objSet_self, Option.or_some]
  | none => simp [setOpt, Option.or]

/-- `objGet` after `setOpt` at another key. -/
theorem objGet_setOpt_ne (d : Obj) {k k' : String} (v? : Option JValue) (h : k' ≠ k) :
    objGet (setOpt d k v?) k' = objGet d k' := by
  cases v? with
  | some v => simp [setOpt, objGet_objSet_ne d v h]
  | none => simp [setOpt]

/-- An `Option`-match whose arms are the identity. -/
theorem optMatch_id {α : Type _} (o : Option α) :
    (match o with
     | some v => some v
     | none => none) = o := by
  cases o <;> rfl

/-- `objGet` on the empty dict. -/
theorem objGet_nil (k : String) : objGet [] k = none := rfl

set_option maxHeartbeats 4000000 in
/-- C3.  For every line the ARMED_TELEMETRY decoder accepts whose
mg/centidps/decisla/1e7 fields all convert, the produced record satisfies
`accel_*_g = accel_*_mg / 1000`, `gyro_*_dps = gyro_*_centidps / 100`,
`mag_*_ut = mag_*_decisla / 10` and `gps_*_deg = gps_*_1e7 / 1e7` (exactly,
in the rational model of f64 values). -/
theorem armed_unit_conversions
    (now raw : String) (r : Obj) (ax ay az gx gy gz mx my mz lat lon : Int)
    (hp : armedParse now raw = some r)
    (hax : objGet r "accel_x_mg" = some (JValue.int ax))
    (hay : objGet r "accel_y_mg" = some (JValue.int ay))
    (haz : objGet r "accel_z_mg" = some (JValue.int az))
    (hgx : objGet r "gyro_x_centidps" = some (JValue.int gx))
    (hgy : objGet r "gyro_y_centidps" = some (JValue.int gy))
    (hgz : objGet r "gyro_z_centidps" = some (JValue.int gz))
    (hmx : objGet r "mag_x_decisla" = some (JValue.int mx))
    (hmy : objGet r "mag_y_decisla" = some (JValue.int my))
    (hmz : objGet r "mag_z_decisla" = some (JValue.int mz))
    (hlat : objGet r "gps_lat_1e7" = some (JValue.int lat))
    (hlon : objGet r "gps_lon_1e7" = some (JValue.int lon)) :
    objGet r "accel_x_g" = some (JValue.num ((ax : ℚ) / 1000)) ∧
    objGet r "accel_y_g" = some (JValue.num ((ay : ℚ) / 1000)) ∧
    objGet r "accel_z_g" = some (JValue.num ((az : ℚ) / 1000)) ∧
    objGet r "gyro_x_dps" = some (JValue.num ((gx : ℚ) / 100)) ∧
    objGet r "gyro_y_dps" = some (JValue.num ((gy : ℚ) / 100)) ∧
    objGet r "gyro_z_dps" = some (JValue.num ((gz : ℚ) / 100)) ∧
    objGet r "mag_x_ut" = some (JValue.num ((mx : ℚ) / 10)) ∧
    objGet r "mag_y_ut" = some (JValue.num ((my : ℚ) / 10)) ∧
    objGet r "mag_z_ut" = some (JValue.num ((mz : ℚ) / 10)) ∧
    objGet r "gps_lat_deg" = some (JValue.num ((lat : ℚ) / 10000000)) ∧
    objGet r "gps_lon_deg" = some (JValue.num ((lon : ℚ) / 10000000)) := by
  simp only [armedParse] at hp
  split at hp
  case isFalse => cases hp
  split at hp
  case h_2 => cases hp
  case h_1 f0 f1 f2 f3 f4 f5 f6 f7 f8 f9 f10 f11 f12 f13 f14 f15 _ =>
    cases hp
    simp only [armedBuild, objGet_setOpt_self, objGet_setOpt_ne, objGet_objSet_self,
      objGet_objSet_ne, apply_ite (fun d => objGet d "accel_x_mg"),
      apply_ite (fun d => objGet d "accel_y_mg"), apply_ite (fun d => objGet d "accel_z_mg"),
      apply_ite (fun d => objGet d "gyro_x_centidps"),
      apply_ite (fun d => objGet d "gyro_y_centidps"),
      apply_ite (fun d => objGet d "gyro_z_centidps"),
      apply_ite (fun d => objGet d "mag_x_decisla"), apply_ite (fun d => objGet d "mag_y_decisla"),
      apply_ite (fun d => objGet d "mag_z_decisla"), apply_ite (fun d => objGet d "gps_lat_1e7"),
      apply_ite (fun d => objGet d "gps_lon_1e7"), objGet_nil, Option.or_none,
      Option.or_some, ite_self,
      Option.map_eq_some', JValue.int.injEq, ne_eq, String.reduceEq, not_false_eq_true,
      exists_eq_right] at hax hay haz hgx hgy hgz hmx hmy hmz hlat hlon
    simp [armedBuild, objGet_setOpt_self, objGet_setOpt_ne, objGet_objSet_self,
      objGet_objSet_ne, objGet_nil, Option.or_none, Option.or_some, ite_self,
      apply_ite (fun d => objGet d "accel_x_g"), apply_ite (fun d => objGet d "accel_y_g"),
      apply_ite (fun d => objGet d "accel_z_g"), apply_ite (fun d => objGet d "gyro_x_dps"),
      apply_ite (fun d => objGet d "gyro_y_dps"), apply_ite (fun d => objGet d "gyro_z_dps"),
      apply_ite (fun d => objGet d "mag_x_ut"), apply_ite (fun d => objGet d "mag_y_ut"),
      apply_ite (fun d => objGet d "mag_z_ut"), apply_ite (fun d => objGet d "gps_lat_deg"),
      apply_ite (fun d => objGet d "gps_lon_deg"),
      hax, hay, haz, hgx, hgy, hgz, hmx, hmy, hmz, hlat, hlon, asNum]


set_option maxHeartbeats 2000000 in
/-- C4.  In every ARMED record containing `gps_lat_1e7`, `gps_lon_1e7` and
`gps_satellites`, the `gps_valid` field is `True` exactly when
`satellites >= 4`, `|lat_1e7| > 100000` and `|lon_1e7| > 100000`. -/
theorem armed_gps_validity
    (now raw : String) (r : Obj) (lat lon sat : Int)
    (hp : armedParse now raw = some r)
    (hlat : objGet r "gps_lat_1e7" = some (JValue.int lat))
    (hlon : objGet r "gps_lon_1e7" = some (JValue.int lon))
    (hsat : objGet r "gps_satellites" = some (JValue.int sat)) :
    objGet r "gps_valid" = some (JValue.bool true) ↔
      4 ≤ sat ∧ 100000 < |lat| ∧ 100000 < |lon| := by
  simp only [armedParse] at hp
  split at hp
  case isFalse => cases hp
  split at hp
  case h_2 => cases hp
  case h_1 f0 f1 f2 f3 f4 f5 f6 f7 f8 f9 f10 f11 f12 f13 f14 f15 _ =>
    cases hp
    simp only [armedBuild, objGet_setOpt_self, objGet_setOpt_ne, objGet_objSet_self,
      objGet_objSet_ne, apply_ite (fun d => objGet d "gps_lat_1e7"),
      apply_ite (fun d => objGet d "gps_lon_1e7"),
      apply_ite (fun d => objGet d "gps_satellites"), objGet_nil, Option.or_none,
      Option.or_some, ite_self, Option.map_eq_some', JValue.int.injEq, ne_eq,
      String.reduceEq, not_false_eq_true, exists_eq_right] at hlat hlon hsat
    have hv : objGet
        (armedBuild now (pyStrip raw) f0 f1 f2 f3 f4 f5 f6 f7 f8 f9 f10 f11 f12 f13 f14 f15)
        "gps_valid" = some (JValue.bool (isGpsValid lat lon sat)) := by
      simp [armedBuild, objGet_setOpt_self, objGet_setOpt_ne, objGet_objSet_self,
        objGet_objSet_ne, objGet_nil, Option.or_none, Option.or_some, ite_self,
        apply_ite (fun d => objGet d "gps_valid"),
        apply_ite (fun d => objGet d "gps_lat_1e7"),
        apply_ite (fun d => objGet d "gps_lon_1e7"),
        apply_ite (fun d => objGet d "gps_satellites"),
        hlat, hlon, hsat, asInt]
    rw [hv]
    simp [isGpsValid, Option.some_inj, JValue.bool.injEq, Bool.and_eq_true,
      decide_eq_true_eq, and_assoc]


/-- C3 witness: the S1 line, whose raw fields are
`ax=-37, ay=-967, az=-3, gx=128, gy=-27, gz=204, mx=6, my=-53, mz=20,
lat=1, lon=1`. -/
theorem armed_unit_conversions_witness :
    (match armedParse "T"
        "<05/27/2025,11:43:46,0.95,-37,-967,-3,128,-27,204,6,-53,20,1,1,0,24>" with
     | none => False
     | some r =>
         objGet r "accel_x_g" = some (JValue.num (((-37 : Int) : ℚ) / 1000)) ∧
         objGet r "accel_y_g" = some (JValue.num (((-967 : Int) : ℚ) / 1000)) ∧
         objGet r "accel_z_g" = some (JValue.num (((-3 : Int) : ℚ) / 1000)) ∧
         objGet r "gyro_x_dps" = some (JValue.num (((128 : Int) : ℚ) / 100)) ∧
         objGet r "gyro_y_dps" = some (JValue.num (((-27 : Int) : ℚ) / 100)) ∧
         objGet r "gyro_z_dps" = some (JValue.num (((204 : Int) : ℚ) / 100)) ∧
         objGet r "mag_x_ut" = some (JValue.num (((6 : Int) : ℚ) / 10)) ∧
         objGet r "mag_y_ut" = some (JValue.num (((-53 : Int) : ℚ) / 10)) ∧
         objGet r "mag_z_ut" = some (JValue.num (((20 : Int) : ℚ) / 10)) ∧
         objGet r "gps_lat_deg" = some (JValue.num (((1 : Int) : ℚ) / 10000000)) ∧
         objGet r "gps_lon_deg" = some (JValue.num (((1 : Int) : ℚ) / 10000000))) := by
  cases heq : armedParse "T"
      "<05/27/2025,11:43:46,0.95,-37,-967,-3,128,-27,204,6,-53,20,1,1,0,24>" with
  | none =>
      have hs : (armedParse "T"
          "<05/27/2025,11:43:46,0.95,-37,-967,-3,128,-27,204,6,-53,20,1,1,0,24>").isSome =
          true := rfl
      rw [heq] at hs
      simp at hs
  | some r =>
      have hax : objGet r "accel_x_mg" = some (JValue.int (-37)) := by
        have h1 : (armedParse "T"
            "<05/27/2025,11:43:46,0.95,-37,-967,-3,128,-27,204,6,-53,20,1,1,0,24>").bind
            (fun r => objGet r "accel_x_mg") = some (JValue.int (-37)) := rfl
        rw [heq] at h1
        exact h1
      have hay : objGet r "accel_y_mg" = some (JValue.int (-967)) := by
        have h1 : (armedParse "T"
            "<05/27/2025,11:43:46,0.95,-37,-967,-3,128,-27,204,6,-53,20,1,1,0,24>").bind
            (fun r => objGet r "accel_y_mg") = some (JValue.int (-967)) := rfl
        rw [heq] at h1
        exact h1
      have haz : objGet r "accel_z_mg" = some (JValue.int (-3)) := by
        have h1 : (armedParse "T"
            "<05/27/2025,11:43:46,0.95,-37,-967,-3,128,-27,204,6,-53,20,1,1,0,24>").bind
            (fun r => objGet r "accel_z_mg") = some (JValue.int (-3)) := rfl
        rw [heq] at h1
        exact h1
      have hgx : objGet r "gyro_x_centidps" = some (JValue.int 128) := by
        have h1 : (armedParse "T"
            "<05/27/2025,11:43:46,0.95,-37,-967,-3,128,-27,204,6,-53,20,1,1,0,24>").bind
            (fun r => objGet r "gyro_x_centidps") = some (JValue.int 128) := rfl
        rw [heq] at h1
        exact h1
      have hgy : objGet r "gyro_y_centidps" = some (JValue.int (-27)) := by
        have h1 : (armedParse "T"
            "<05/27/2025,11:43:46,0.95,-37,-967,-3,128,-27,204,6,-53,20,1,1,0,24>").bind
            (fun r => objGet r "gyro_y_centidps") = some (JValue.int (-27)) := rfl
        rw [heq] at h1
        exact h1
      have hgz : objGet r "gyro_z_centidps" = some (JValue.int 204) := by
        have h1 : (armedParse "T"
            "<05/27/2025,11:43:46,0.95,-37,-967,-3,128,-27,204,6,-53,20,1,1,0,24>").bind
            (fun r => objGet r "gyro_z_centidps") = some (JValue.int 204) := rfl
        rw [heq] at h1
        exact h1
      have hmx : objGet r "mag_x_decisla" = some (JValue.int 6) := by
        have h1 : (armedParse "T"
            "<05/27/2025,11:43:46,0.95,-37,-967,-3,128,-27,204,6,-53,20,1,1,0,24>").bind
            (fun r => objGet r "mag_x_decisla") = some (JValue.int 6) := rfl
        rw [heq] at h1
        exact h1
      have hmy : objGet r "mag_y_decisla" = some (JValue.int (-53)) := by
        have h1 : (armedParse "T"
            "<05/27/2025,11:43:46,0.95,-37,-967,-3,128,-27,204,6,-53,20,1,1,0,24>").bind
            (fun r => objGet r "mag_y_decisla") = some (JValue.int (-53)) := rfl
        rw [heq] at h1
        exact h1
      have hmz : objGet r "mag_z_decisla" = some (JValue.int 20) := by
        have h1 : (armedParse "T"
            "<05/27/2025,11:43:46,0.95,-37,-967,-3,128,-27,204,6,-53,20,1,1,0,24>").bind
            (fun r => objGet r "mag_z_decisla") = some (JValue.int 20) := rfl
        rw [heq] at h1
        exact h1
      have hlat : objGet r "gps_lat_1e7" = some (JValue.int 1) := by
        have h1 : (armedParse "T"
            "<05/27/2025,11:43:46,0.95,-37,-967,-3,128,-27,204,6,-53,20,1,1,0,24>").bind
            (fun r => objGet r "gps_lat_1e7") = some (JValue.int 1) := rfl
        rw [heq] at h1
        exact h1
      have hlon : objGet r "gps_lon_1e7" = some (JValue.int 1) := by
        have h1 : (armedParse "T"
            "<05/27/2025,11:43:46,0.95,-37,-967,-3,128,-27,204,6,-53,20,1,1,0,24>").bind
            (fun r => objGet r "gps_lon_1e7") = some (JValue.int 1) := rfl
        rw [heq] at h1
        exact h1
      exact armed_unit_conversions "T"
        "<05/27/2025,11:43:46,0.95,-37,-967,-3,128,-27,204,6,-53,20,1,1,0,24>" r
        (-37) (-967) (-3) 128 (-27) 204 6 (-53) 20 1 1 heq
        hax hay haz hgx hgy hgz hmx hmy hmz hlat hlon

/-- C4 witness: the S1 line has `lat=lon=1`, `sat=0`: too few satellites and
a near-origin fix, so `gps_valid` is not `True`. -/
theorem armed_gps_validity_witness :
    (match armedParse "T"
        "<05/27/2025,11:43:46,0.95,-37,-967,-3,128,-27,204,6,-53,20,1,1,0,24>" with
     | none => False
     | some r =>
         objGet r "gps_valid" = some (JValue.bool true) ↔
           4 ≤ (0 : Int) ∧ 100000 < |(1 : Int)| ∧ 100000 < |(1 : Int)|) := by
  cases heq : armedParse "T"
      "<05/27/2025,11:43:46,0.95,-37,-967,-3,128,-27,204,6,-53,20,1,1,0,24>" with
  | none =>
      have hs : (armedParse "T"
          "<05/27/2025,11:43:46,0.95,-37,-967,-3,128,-27,204,6,-53,20,1,1,0,24>").isSome =
          true := rfl
      rw [heq] at hs
      simp at hs
  | some r =>
      have hlat : objGet r "gps_lat_1e7" = some (JValue.int 1) := by
        have h1 : (armedParse "T"
            "<05/27/2025,11:43:46,0.95,-37,-967,-3,128,-27,204,6,-53,20,1,1,0,24>").bind
            (fun r => objGet r "gps_lat_1e7") = some (JValue.int 1) := rfl
        rw [heq] at h1
        exact h1
      have hlon : objGet r "gps_lon_1e7" = some (JValue.int 1) := by
        have h1 : (armedParse "T"
            "<05/27/2025,11:43:46,0.95,-37,-967,-3,128,-27,204,6,-53,20,1,1,0,24>").bind
            (fun r => objGet r "gps_lon_1e7") = some (JValue.int 1) := rfl
        rw [heq] at h1
        exact h1
      have hsat : objGet r "gps_satellites" = some (JValue.int 0) := by
        have h1 : (armedParse "T"
            "<05/27/2025,11:43:46,0.95,-37,-967,-3,128,-27,204,6,-53,20,1,1,0,24>").bind
            (fun r => objGet r "gps_satellites") = some (JValue.int 0) := rfl
        rw [heq] at h1
        exact h1
      exact armed_gps_validity "T"
        "<05/27/2025,11:43:46,0.95,-37,-967,-3,128,-27,204,6,-53,20,1,1,0,24>" r
        1 1 0 heq hlat hlon hsat

/-- A record with a present key is truthy. -/
theorem jtruthy_of_get {r : Obj} {k : String} (h : (objGet r k).isSome = true) :
    jtruthy r = true := by
  cases r with
  | nil => simp [objGet, List.find?] at h
  | cons p rest => simp [jtruthy]

/-- Folding `objSet` over pairs whose keys avoid `k` does not change `k`. -/
theorem objGet_foldSet_ne (l : List (String × JValue)) (d : Obj) (k : String)
    (h : ∀ p ∈ l, p.1 ≠ k) :
    objGet (l.foldl (fun dd p => objSet dd p.1 p.2) d) k = objGet d k := by
  induction l generalizing d with
  | nil => rfl
  | cons p rest ih =>
      rw [List.foldl_cons, ih _ (fun q hq => h q (List.mem_cons_of_mem p hq))]
      exact objGet_objSet_ne d p.2 (Ne.symm (h p (List.mem_cons_self p rest)))

/-- The keys `_parse_gpgga` can produce. -/
theorem gpggaFields_keys (parts : List String) :
    ∀ q ∈ gpggaFields parts, q.1 ∈
      ["time", "latitude", "longitude", "fix_quality", "satellites", "hdop", "altitude"] := by
  intro q hq
  unfold gpggaFields at hq
  rcases hv : gpggaVals parts with _ | ⟨v1, v2, v3, v4, v5, v6, v7⟩ <;> rw [hv] at hq
  · simp at hq
  · simp only [List.mem_cons, List.not_mem_nil, or_false] at hq
    rcases hq with rfl | rfl | rfl | rfl | rfl | rfl | rfl <;> simp

set_option maxHeartbeats 2000000 in
/-- Every record a decoder produces carries the three metadata fields
`_parser`, `_timestamp_parsed` and `_raw_data`. -/
theorem decode_metadata (p : Decoder) (now raw : String) (r : Obj)
    (h : p.decode now raw = some r) :
    (objGet r "_parser").isSome = true ∧ (objGet r "_timestamp_parsed").isSome = true ∧
      (objGet r "_raw_data").isSome = true := by
  cases p with
  | armed =>
      simp only [Decoder.decode, armedParse] at h
      split at h
      case isFalse => cases h
      split at h
      case h_2 => cases h
      case h_1 =>
        cases h
        refine ⟨?_, ?_, ?_⟩ <;>
          simp [armedBuild, objGet_objSet_self, objGet_objSet_ne]
  | sentinel mapping =>
      simp only [Decoder.decode, sentinelParse] at h
      split at h
      case isFalse => cases h
      case isTrue =>
        cases h
        refine ⟨?_, ?_, ?_⟩ <;> simp [objGet_objSet_self, objGet_objSet_ne]
  | nmea =>
      simp only [Decoder.decode, nmeaParse] at h
      split at h
      case isFalse => cases h
      case isTrue =>
        cases h
        have hne : ∀ k : String, k ∈
            (["time", "latitude", "longitude", "fix_quality", "satellites", "hdop",
              "altitude"] : List String) →
            (k ≠ "_parser" ∧ k ≠ "_timestamp_parsed" ∧ k ≠ "_raw_data") := by
          intro k hk
          simp only [List.mem_cons, List.not_mem_nil, or_false] at hk
          rcases hk with rfl | rfl | rfl | rfl | rfl | rfl | rfl <;> refine ⟨?_, ?_, ?_⟩ <;>
            simp
        refine ⟨?_, ?_, ?_⟩ <;>
        · split
          · rw [objGet_foldSet_ne]
            · simp [objGet, List.find?]
            · intro q hq
              have := hne q.1 (gpggaFields_keys _ q hq)
              tauto
          · simp [objGet, List.find?]
  | json =>
      simp only [Decoder.decode, jsonParse] at h
      split at h
      case h_1 =>
        cases h
        refine ⟨?_, ?_, ?_⟩ <;> simp [objGet_objSet_self, objGet_objSet_ne]
      case h_2 => cases h
      case h_3 => cases h
  | custom delim names fmtName =>
      simp only [Decoder.decode, customParse] at h
      split at h
      case isFalse => cases h
      case isTrue =>
        split at h
        case isTrue => cases h
        case isFalse =>
          cases h
          refine ⟨?_, ?_, ?_⟩ <;> simp [objGet_objSet_self, objGet_objSet_ne]

/-- Every record a decoder produces is truthy (non-empty). -/
theorem decode_truthy (p : Decoder) (now raw : String) (r : Obj)
    (h : p.decode now raw = some r) : jtruthy r = true :=
  jtruthy_of_get (decode_metadata p now raw r h).1

/-- The auto-detection loop returns the record of the first decoder in list
order whose `validate_format` answers yes *and* whose `parse` produces a
record. -/
theorem parseAuto_first_success (now raw : String) :
    ∀ (ps : List Decoder) (r : Obj),
      parseAuto now raw none ps = some r →
      ∃ p, ps.find? (fun q => q.validate raw && (q.decode now raw).isSome) = some p ∧
        p.decode now raw = some r := by
  intro ps
  induction ps with
  | nil => intro r h; cases h
  | cons p ps ih =>
      intro r h
      by_cases hv : p.validate raw = true
      · cases hd : p.decode now raw with
        | some r0 =>
            have ht := decode_truthy p now raw r0 hd
            simp [parseAuto, hv, hd, ht] at h
            subst h
            exact ⟨p, by simp [List.find?, hv, hd], hd⟩
        | none =>
            simp [parseAuto, hv, hd] at h
            obtain ⟨p', hf, hd'⟩ := ih r h
            exact ⟨p', by simp [List.find?, hv, hd, hf], hd'⟩
      · simp [parseAuto, hv] at h
        obtain ⟨p', hf, hd'⟩ := ih r h
        refine ⟨p', ?_, hd'⟩
        simpa [List.find?, hv] using hf

/-- Once a decoder validates and produces a record, the loop stops: the
decoders after it are irrelevant. -/
theorem parseAuto_append_stop (now raw : String) (p : Decoder)
    (hv : p.validate raw = true) (hs : (p.decode now raw).isSome = true) :
    ∀ ps1 ps2 : List Decoder,
      parseAuto now raw none (ps1 ++ p :: ps2) = parseAuto now raw none (ps1 ++ [p]) := by
  intro ps1
  induction ps1 with
  | nil =>
      intro ps2
      cases hd : p.decode now raw with
      | some r0 =>
          have ht := decode_truthy p now raw r0 hd
          simp [parseAuto, hv, hd, ht]
      | none => rw [hd] at hs; cases hs
  | cons q ps1 ih =>
      intro ps2
      by_cases hq : q.validate raw = true
      · cases hd : q.decode now raw with
        | some r0 =>
            have ht := decode_truthy q now raw r0 hd
            simp [parseAuto, hq, hd, ht]
        | none =>
            simp [parseAuto, hq, hd]
            exact ih ps2
      · simp [parseAuto, hq]
        exact ih ps2


/-- C1 (amended).  In auto-detect mode the produced record (if any) comes
from the first decoder in registration order whose `validate_format` returns
true *and* whose `parse` produces a record; once a decoder has produced a
record, the decoders after it are never consulted.  (A decoder may answer
yes and still produce nothing — JSON does so on any non-object JSON line —
and the loop then moves on; see `auto_detect_first_match_cex`.) -/
theorem auto_detect_first_producing_decoder_wins :
    (∀ (m : Manager) (now raw : String) (r : Obj),
        m.autoDetect = true → parseData m now raw = some r →
        ∃ p, m.decoders.find? (fun q => q.validate raw && (q.decode now raw).isSome) = some p ∧
          p.decode now raw = some r) ∧
    (∀ (now raw : String) (ps1 ps2 : List Decoder) (p : Decoder),
        p.validate raw = true → (p.decode now raw).isSome = true →
        parseAuto now raw none (ps1 ++ p :: ps2) = parseAuto now raw none (ps1 ++ [p])) := by
  constructor
  · intro m now raw r hauto h
    by_cases he : (pyStrip raw).data.isEmpty = true
    · simp [parseData, he] at h
    · simp only [parseData, he, Bool.false_eq_true, if_false, hauto, if_true] at h
      exact parseAuto_first_success now raw m.decoders r h
  · intro now raw ps1 ps2 p hv hs
    exact parseAuto_append_stop now raw p hv hs ps1 ps2

/-- C1, the claim as frozen, is false: on the line `[1,2]` the first decoder
whose `validate_format` answers yes is JSON (valid JSON text), but its
`parse` returns nothing (a JSON array is not a dict and the metadata
item-assignment raises `TypeError`), so the loop moves on and the record is
produced by the later custom decoder. -/
theorem auto_detect_first_match_cex :
    ((registerDecoder defaultManager (Decoder.custom "," [] "CUSTOM_DELIMITED_,")).decoders.find?
        (fun p => p.validate "[1,2]")).map Decoder.formatName = some "JSON" ∧
    Decoder.json.decode "T" "[1,2]" = none ∧
    (parseData (registerDecoder defaultManager (Decoder.custom "," [] "CUSTOM_DELIMITED_,"))
        "T" "[1,2]").bind (fun r => objGet r "_parser") =
      some (JValue.str "CUSTOM_DELIMITED_,") :=
  ⟨rfl, rfl, rfl⟩

/-- C1 witness: with the default registration order and the ARMED line of
scenario S1, the loop stops at the ARMED decoder: the decoders after it are
irrelevant. -/
theorem auto_detect_first_producing_decoder_wins_witness :
    parseAuto "T" "<05/27/2025,11:43:46,0.95,-37,-967,-3,128,-27,204,6,-53,20,1,1,0,24>" none
        ([] ++ Decoder.armed ::
          [Decoder.sentinel sentinelMappingDefault, Decoder.nmea, Decoder.json]) =
      parseAuto "T" "<05/27/2025,11:43:46,0.95,-37,-967,-3,128,-27,204,6,-53,20,1,1,0,24>" none
        ([] ++ [Decoder.armed]) :=
  auto_detect_first_producing_decoder_wins.2 "T"
    "<05/27/2025,11:43:46,0.95,-37,-967,-3,128,-27,204,6,-53,20,1,1,0,24>" []
    [Decoder.sentinel sentinelMappingDefault, Decoder.nmea, Decoder.json] Decoder.armed
    (by rfl) (by rfl)

/-- C8 (amended).  Every record the pipeline hands on carries `_parser`,
`_timestamp_parsed` and `_raw_data` (set by whichever decoder produced it)
and `_source_port` (set by `process_serial_data`).  The spec's names `_raw`
and `_parsed_at` do not occur in any record; see `record_metadata_cex`. -/
theorem processed_record_metadata (m : Manager) (port now raw : String) (r : Obj)
    (h : processSerialData m port now raw = some r) :
    (objGet r "_parser").isSome = true ∧ (objGet r "_timestamp_parsed").isSome = true ∧
      (objGet r "_raw_data").isSome = true ∧
      objGet r "_source_port" = some (JValue.str port) := by
  unfold processSerialData at h
  cases hpd : parseData m now raw with
  | none => rw [hpd] at h; cases h
  | some r0 =>
      have hmeta : (objGet r0 "_parser").isSome = true ∧
          (objGet r0 "_timestamp_parsed").isSome = true ∧
          (objGet r0 "_raw_data").isSome = true := by
        unfold parseData at hpd
        split at hpd
        case isTrue => cases hpd
        case isFalse =>
          split at hpd
          case isTrue =>
            obtain ⟨p, _, hdq⟩ := parseAuto_first_success now raw m.decoders r0 hpd
            exact decode_metadata p now raw r0 hdq
          case isFalse =>
            cases hact : m.activeDecoder with
            | none => rw [hact] at hpd; cases hpd
            | some p => rw [hact] at hpd; exact decode_metadata p now raw r0 hpd
      have ht : jtruthy r0 = true := jtruthy_of_get hmeta.1
      rw [hpd] at h
      simp only [ht, if_true, Option.some_inj] at h
      subst h
      refine ⟨?_, ?_, ?_, ?_⟩
      · rw [objGet_objSet_ne _ _ (show "_parser" ≠ "_source_port" by decide)]
        exact hmeta.1
      · rw [objGet_objSet_ne _ _ (show "_timestamp_parsed" ≠ "_source_port" by decide)]
        exact hmeta.2.1
      · rw [objGet_objSet_ne _ _ (show "_raw_data" ≠ "_source_port" by decide)]
        exact hmeta.2.2
      · exact objGet_objSet_self r0 "_source_port" (JValue.str port)

/-- C8, the claim as frozen, is false about the field *names*: the record
produced for the S1 line carries no `_raw` and no `_parsed_at` key (the code
uses `_raw_data` and `_timestamp_parsed`). -/
theorem record_metadata_cex :
    (processSerialData defaultManager "COM1" "T"
        "<05/27/2025,11:43:46,0.95,-37,-967,-3,128,-27,204,6,-53,20,1,1,0,24>").isSome = true ∧
    (processSerialData defaultManager "COM1" "T"
        "<05/27/2025,11:43:46,0.95,-37,-967,-3,128,-27,204,6,-53,20,1,1,0,24>").bind
      (fun r => objGet r "_raw") = none ∧
    (processSerialData defaultManager "COM1" "T"
        "<05/27/2025,11:43:46,0.95,-37,-967,-3,128,-27,204,6,-53,20,1,1,0,24>").bind
      (fun r => objGet r "_parsed_at") = none :=
  ⟨rfl, rfl, rfl⟩

/-- C8 witness: the record processed from the S1 line on port COM1 carries
the four metadata fields. -/
theorem processed_record_metadata_witness :
    (match processSerialData defaultManager "COM1" "T"
        "<05/27/2025,11:43:46,0.95,-37,-967,-3,128,-27,204,6,-53,20,1,1,0,24>" with
     | none => False
     | some r =>
         (objGet r "_parser").isSome = true ∧ (objGet r "_timestamp_parsed").isSome = true ∧
           (objGet r "_raw_data").isSome = true ∧
           objGet r "_source_port" = some (JValue.str "COM1")) := by
  cases heq : processSerialData defaultManager "COM1" "T"
      "<05/27/2025,11:43:46,0.95,-37,-967,-3,128,-27,204,6,-53,20,1,1,0,24>" with
  | none =>
      have hs : (processSerialData defaultManager "COM1" "T"
          "<05/27/2025,11:43:46,0.95,-37,-967,-3,128,-27,204,6,-53,20,1,1,0,24>").isSome =
          true := rfl
      rw [heq] at hs
      simp at hs
  | some r =>
      exact processed_record_metadata defaultManager "COM1" "T"
        "<05/27/2025,11:43:46,0.95,-37,-967,-3,128,-27,204,6,-53,20,1,1,0,24>" r heq

/-- C10.  `set_active_parser` with a name no registered decoder bears
returns `False` and leaves the registry unchanged, so parsing behaves
exactly as before the failed call. -/
theorem set_active_unknown_name_noop (m : Manager) (name : String)
    (h : name ∉ m.decoders.map Decoder.formatName) :
    setActiveDecoder m name = (false, m) ∧
      ∀ now raw, parseData (setActiveDecoder m name).2 now raw = parseData m now raw := by
  have hf : m.decoders.find? (fun p => p.formatName = name) = none := by
    rw [List.find?_eq_none]
    intro p hp
    simp only [decide_eq_true_eq]
    intro he
    exact h (List.mem_map.mpr ⟨p, hp, he⟩)
  constructor
  · simp [setActiveDecoder, hf]
  · intro now raw
    simp [setActiveDecoder, hf]

/-- C10 witness: pinning the unregistered name `NO_SUCH_FORMAT` on the
default registry fails and changes nothing. -/
theorem set_active_unknown_name_noop_witness :
    setActiveDecoder defaultManager "NO_SUCH_FORMAT" = (false, defaultManager) ∧
      ∀ now raw, parseData (setActiveDecoder defaultManager "NO_SUCH_FORMAT").2 now raw =
        parseData defaultManager now raw :=
  set_active_unknown_name_noop defaultManager "NO_SUCH_FORMAT" (by decide)

/-- C9.  A command message whose command is not one of the recognized
commands gets a response envelope with the request's id, type `response`,
the echoed command, `success = False` and an error string that is exactly
`"Unknown command: "` followed by the command (in particular it begins with
`"Unknown command: "`). -/
theorem unknown_command_response (env : SerialEnv) (m : Manager) (msg : Obj)
    (c : String) (idV : JValue)
    (hid : objGet msg "id" = some idV)
    (hcmd : objGet msg "command" = some (JValue.str c))
    (hc : c ∉ ["list_ports", "open_port", "close_port", "write_port", "write_port_line",
        "read_port", "read_port_line", "is_port_open", "get_port_info", "close_all_ports",
        "get_parser_info", "set_active_parser", "enable_auto_detection", "add_custom_parser",
        "configure_sentinel_parser", "configure_sensor_fusion", "reset_sensor_fusion"]) :
    objGet (handleSerialCommand env m msg) "id" = some idV ∧
    objGet (handleSerialCommand env m msg) "type" = some (JValue.str "response") ∧
    objGet (handleSerialCommand env m msg) "command" = some (JValue.str c) ∧
    objGet (handleSerialCommand env m msg) "success" = some (JValue.bool false) ∧
    objGet (handleSerialCommand env m msg) "error" =
      some (JValue.str ("Unknown command: " ++ c)) := by
  simp only [List.mem_cons, List.not_mem_nil, or_false, not_or] at hc
  obtain ⟨h1, h2, h3, h4, h5, h6, h7, h8, h9, h10, h11, h12, h13, h14, h15, h16, h17⟩ := hc
  simp only [handleSerialCommand, hcmd, hid, Option.getD_some]
  simp [handleNamed, h1, h2, h3, h4, h5, h6, h7, h8, h9,
    h10, h11, h12, h13, h14, h15, h16, h17, unknownResp, pyFormatVal, objGet, List.find?]

/-- C9 witness: the unknown command `frobnicate` with id `42`. -/
theorem unknown_command_response_witness :
    objGet (handleSerialCommand envNull defaultManager
        [("id", JValue.str "42"), ("command", JValue.str "frobnicate")]) "id" =
      some (JValue.str "42") ∧
    objGet (handleSerialCommand envNull defaultManager
        [("id", JValue.str "42"), ("command", JValue.str "frobnicate")]) "type" =
      some (JValue.str "response") ∧
    objGet (handleSerialCommand envNull defaultManager
        [("id", JValue.str "42"), ("command", JValue.str "frobnicate")]) "command" =
      some (JValue.str "frobnicate") ∧
    objGet (handleSerialCommand envNull defaultManager
        [("id", JValue.str "42"), ("command", JValue.str "frobnicate")]) "success" =
      some (JValue.bool false) ∧
    objGet (handleSerialCommand envNull defaultManager
        [("id", JValue.str "42"), ("command", JValue.str "frobnicate")]) "error" =
      some (JValue.str ("Unknown command: " ++ "frobnicate")) :=
  unknown_command_response envNull defaultManager
    [("id", JValue.str "42"), ("command", JValue.str "frobnicate")] "frobnicate"
    (JValue.str "42") rfl rfl (by decide)




/-- C7: calibrate with fewer than 10 samples is a no-op. -/
theorem calibrate_short_noop (s : Fusion) (samples : List IMUData) (st : Bool)
    (h : samples.length < 10) : calibrate s samples st = s := by
  unfold calibrate
  rw [if_pos h]

theorem calibrate_short_noop_witness :
    ([] : List IMUData).length < 10 ∧ calibrate initialFusion [] true = initialFusion :=
  ⟨by decide, calibrate_short_noop initialFusion [] true (by decide)⟩

/-- On the first update with a perfectly stationary sample the corrective
step is the zero vector; NumPy divides it by its zero norm and the run is
NaN-poisoned (modelled as no result). -/
theorem stationary_update_poisoned :
    processImuData initialFusion imuStationary = none := by
  have hna : v3norm ⟨0, 0, 981/100⟩ = 981/100 := by
    unfold v3norm
    rw [show (0:ℝ)^2 + (0:ℝ)^2 + (981/100:ℝ)^2 = (981/100)^2 by norm_num]
    exact Real.sqrt_sq (by norm_num)
  have hcore : madgwickCore (1/10) (1/10) ⟨1, 0, 0, 0⟩ ⟨0, 0, 0⟩ ⟨0, 0, 981/100⟩ none = none := by
    unfold madgwickCore
    rw [if_neg (by rw [hna]; norm_num)]
    simp only [hna]
    norm_num [qnorm, qmul, Real.sqrt_zero]
  unfold processImuData
  simp only [imuStationary, initialFusion]
  norm_num [radians]
  rw [hcore]

/-- C5: the stationary uncalibrated sample drives the corrective step to the
zero vector; NumPy divides by its zero norm (NaN), modelled as no result. -/
theorem madgwick_zero_step_nan :
    processImuData initialFusion imuStationary = none :=
  stationary_update_poisoned

/-- C6: on the reachable stationary first sample the Madgwick step divides
by zero and the run is NaN-poisoned: no well-defined orientation is
produced at all (in the source, `process_imu_data` returns an orientation
whose roll, pitch and yaw are all NaN, which lies in none of the claimed
ranges). -/
theorem orientation_ranges_nan_violation :
    (processImuData initialFusion imuStationary).map (fun os => os.1) = none := by
  rw [stationary_update_poisoned]
  rfl


/-- `atan2` lands in `(-π, π]` (the range of the complex argument). -/
theorem atan2_mem_Ioc (y x : ℝ) : -Real.pi < atan2 y x ∧ atan2 y x ≤ Real.pi := by
  have h := Complex.arg_mem_Ioc ⟨x, y⟩
  exact ⟨h.1, h.2⟩

/-- Degrees of a radian value in `(-π, π]` lie in `(-180, 180]`. -/
theorem degrees_mem_Ioc {r : ℝ} (h1 : -Real.pi < r) (h2 : r ≤ Real.pi) :
    -180 < degrees r ∧ degrees r ≤ 180 := by
  have hπ := Real.pi_pos
  unfold degrees
  constructor
  · rw [lt_div_iff₀ hπ]
    nlinarith
  · rw [div_le_iff₀ hπ]
    nlinarith

/-- Degrees of a radian value in `[-π/2, π/2]` lie in `[-90, 90]`. -/
theorem degrees_mem_Icc {r : ℝ} (h1 : -(Real.pi / 2) ≤ r) (h2 : r ≤ Real.pi / 2) :
    -90 ≤ degrees r ∧ degrees r ≤ 90 := by
  have hπ := Real.pi_pos
  unfold degrees
  constructor
  · rw [le_div_iff₀ hπ]
    nlinarith
  · rw [div_le_iff₀ hπ]
    nlinarith

/-- The final yaw normalization `if yaw < 0 then yaw + 360` lands in
`[0, 360)` for any `atan2` output. -/
theorem yaw_shift_inRange (y x : ℝ) :
    0 ≤ (if degrees (atan2 y x) < 0 then degrees (atan2 y x) + 360 else degrees (atan2 y x)) ∧
      (if degrees (atan2 y x) < 0 then degrees (atan2 y x) + 360 else degrees (atan2 y x)) <
        360 := by
  have hy := degrees_mem_Ioc (atan2_mem_Ioc y x).1 (atan2_mem_Ioc y x).2
  constructor
  · split
    · linarith [hy.1]
    · rename_i h
      push_neg at h
      exact h
  · split
    · linarith
    · linarith [hy.2]

/-- The raw orientation `process_imu_data` builds from the updated
quaternion satisfies the angle ranges. -/
theorem raw_orientation_inRange (q' : Quat) :
    orientationInRange ⟨degrees (eulerOf q').1, degrees (eulerOf q').2.1,
      (if degrees (eulerOf q').2.2 < 0 then degrees (eulerOf q').2.2 + 360
       else degrees (eulerOf q').2.2), q'⟩ := by
  have hroll := degrees_mem_Ioc (atan2_mem_Ioc (2 * (q'.w * q'.x + q'.y * q'.z))
    (1 - 2 * (q'.x ^ 2 + q'.y ^ 2))).1 (atan2_mem_Ioc _ _).2
  have hpitch : -(Real.pi / 2) ≤ (eulerOf q').2.1 ∧ (eulerOf q').2.1 ≤ Real.pi / 2 := by
    have hπ := Real.pi_pos
    unfold eulerOf
    dsimp only
    split
    · split
      · constructor <;> nlinarith
      · constructor <;> nlinarith
    · exact ⟨Real.neg_pi_div_two_le_arcsin _, Real.arcsin_le_pi_div_two _⟩
  have hpd := degrees_mem_Icc hpitch.1 hpitch.2
  refine ⟨hroll.1, hroll.2, hpd.1, hpd.2, ?_, ?_⟩
  · unfold eulerOf
    dsimp only
    exact (yaw_shift_inRange _ _).1
  · unfold eulerOf
    dsimp only
    exact (yaw_shift_inRange _ _).2


/-- Positivity of the linspace weights (for `n ≥ 3`, as at the call site). -/
theorem linWeight_pos {n : ℕ} (hn : 3 ≤ n) (i : ℕ) : 0 < linWeight n i := by
  unfold linWeight
  have h1 : (2 : ℝ) ≤ (n : ℝ) - 1 := by
    have : (3 : ℝ) ≤ (n : ℝ) := by exact_mod_cast hn
    linarith
  have h2 : (0 : ℝ) ≤ 0.5 * i / ((n : ℝ) - 1) := by positivity
  linarith

/-- The normalized linspace weights sum to 1. -/
theorem weight_div_sum {n : ℕ} (hn : 3 ≤ n) :
    ∑ i in Finset.range n, linWeight n i / weightSum n = 1 := by
  have hS : 0 < weightSum n := by
    unfold weightSum
    refine Finset.sum_pos (fun i _ => linWeight_pos hn i) ?_
    exact Finset.nonempty_range_iff.mpr (by omega)
  rw [← Finset.sum_div]
  exact div_self hS.ne'

/-- The weighted-average orientation built by the smoothing step is in
range when every history entry is. -/
theorem smoothAvg_inRange (hist : List Orientation) (q : Quat)
    (hn : 3 ≤ hist.length) (hall : ∀ o' ∈ hist, orientationInRange o') :
    orientationInRange
      ⟨∑ i in Finset.range hist.length,
          (hist.getD i default).roll * (linWeight hist.length i / weightSum hist.length),
        ∑ i in Finset.range hist.length,
          (hist.getD i default).pitch * (linWeight hist.length i / weightSum hist.length),
        (if degrees (atan2
              (∑ i in Finset.range hist.length,
                Real.sin (radians (hist.getD i default).yaw) *
                  (linWeight hist.length i / weightSum hist.length))
              (∑ i in Finset.range hist.length,
                Real.cos (radians (hist.getD i default).yaw) *
                  (linWeight hist.length i / weightSum hist.length))) < 0
          then degrees (atan2
              (∑ i in Finset.range hist.length,
                Real.sin (radians (hist.getD i default).yaw) *
                  (linWeight hist.length i / weightSum hist.length))
              (∑ i in Finset.range hist.length,
                Real.cos (radians (hist.getD i default).yaw) *
                  (linWeight hist.length i / weightSum hist.length))) + 360
          else degrees (atan2
              (∑ i in Finset.range hist.length,
                Real.sin (radians (hist.getD i default).yaw) *
                  (linWeight hist.length i / weightSum hist.length))
              (∑ i in Finset.range hist.length,
                Real.cos (radians (hist.getD i default).yaw) *
                  (linWeight hist.length i / weightSum hist.length)))), q⟩ := by
  have hS : 0 < weightSum hist.length := by
    unfold weightSum
    refine Finset.sum_pos (fun i _ => linWeight_pos hn i) ?_
    exact Finset.nonempty_range_iff.mpr (by omega)
  have hwpos : ∀ i, 0 < linWeight hist.length i / weightSum hist.length :=
    fun i => div_pos (linWeight_pos hn i) hS
  have hget : ∀ i ∈ Finset.range hist.length, orientationInRange (hist.getD i default) := by
    intro i hi
    rw [Finset.mem_range] at hi
    rw [List.getD_eq_getElem hist default hi]
    exact hall _ (List.getElem_mem hi)
  have hne : (Finset.range hist.length).Nonempty := Finset.nonempty_range_iff.mpr (by omega)
  refine ⟨?_, ?_, ?_, ?_, ?_, ?_⟩
  · calc (-180 : ℝ) = ∑ i in Finset.range hist.length,
          (-180) * (linWeight hist.length i / weightSum hist.length) := by
            rw [← Finset.mul_sum, weight_div_sum hn, mul_one]
      _ < _ := by
          refine Finset.sum_lt_sum_of_nonempty hne ?_
          intro i hi
          exact mul_lt_mul_of_pos_right (hget i hi).1 (hwpos i)
  · calc ∑ i in Finset.range hist.length,
          (hist.getD i default).roll * (linWeight hist.length i / weightSum hist.length) ≤
        ∑ i in Finset.range hist.length,
          180 * (linWeight hist.length i / weightSum hist.length) := by
          refine Finset.sum_le_sum ?_
          intro i hi
          exact mul_le_mul_of_nonneg_right (hget i hi).2.1 (hwpos i).le
      _ = 180 := by rw [← Finset.mul_sum, weight_div_sum hn, mul_one]
  · calc (-90 : ℝ) = ∑ i in Finset.range hist.length,
          (-90) * (linWeight hist.length i / weightSum hist.length) := by
            rw [← Finset.mul_sum, weight_div_sum hn, mul_one]
      _ ≤ _ := by
          refine Finset.sum_le_sum ?_
          intro i hi
          exact mul_le_mul_of_nonneg_right (hget i hi).2.2.1 (hwpos i).le
  · calc ∑ i in Finset.range hist.length,
          (hist.getD i default).pitch * (linWeight hist.length i / weightSum hist.length) ≤
        ∑ i in Finset.range hist.length,
          90 * (linWeight hist.length i / weightSum hist.length) := by
          refine Finset.sum_le_sum ?_
          intro i hi
          exact mul_le_mul_of_nonneg_right (hget i hi).2.2.2.1 (hwpos i).le
      _ = 90 := by rw [← Finset.mul_sum, weight_div_sum hn, mul_one]
  · exact (yaw_shift_inRange _ _).1
  · exact (yaw_shift_inRange _ _).2

/-- The smoothed orientation stays in range, and so does every entry of the
new history, provided the incoming orientation and history are in range. -/
theorem smoothOrientation_inRange (s : Fusion) (o : Orientation)
    (ho : orientationInRange o) (hh : historyInRange s) :
    orientationInRange (smoothOrientation s o).1 ∧
      ∀ o' ∈ (smoothOrientation s o).2, orientationInRange o' := by
  have happ : ∀ o' ∈ s.history ++ [o], orientationInRange o' := by
    intro o' hmem
    rcases List.mem_append.mp hmem with h | h
    · exact hh o' h
    · simp only [List.mem_singleton] at h
      subst h
      exact ho
  have hdrop : ∀ o' ∈ (s.history ++ [o]).drop 1, orientationInRange o' :=
    fun o' h => happ o' (List.mem_of_mem_drop h)
  unfold smoothOrientation
  dsimp only
  split
  · -- history overflow: the oldest entry was dropped
    split
    · exact ⟨ho, hdrop⟩
    · rename_i hlen
      push_neg at hlen
      exact ⟨smoothAvg_inRange _ o.quaternion hlen hdrop, hdrop⟩
  · split
    · exact ⟨ho, happ⟩
    · rename_i hlen
      push_neg at hlen
      exact ⟨smoothAvg_inRange _ o.quaternion hlen happ, happ⟩


/-- Every orientation a *non-poisoned* update produces (raw or smoothed)
and every orientation it stores satisfies roll in `(-180, 180]`, pitch in
`[-90, 90]`, yaw in `[0, 360)` (in degrees).  The NaN-poisoned runs
(`none`, see `orientation_ranges_nan_violation`) are exactly the ones on
which the source emits an out-of-range all-NaN orientation. -/
theorem orientation_angle_ranges (s : Fusion) (d : IMUData) (hh : historyInRange s) :
    (match processImuData s d with
     | none => True
     | some os => orientationInRange os.1 ∧ historyInRange os.2) := by
  unfold processImuData
  dsimp only
  split
  · trivial
  · rename_i os heq
    split at heq
    · cases heq
    · rename_i q' hcore
      cases heq
      have hraw := raw_orientation_inRange q'
      have hsm := smoothOrientation_inRange s
        ⟨degrees (eulerOf q').1, degrees (eulerOf q').2.1,
          (if degrees (eulerOf q').2.2 < 0 then degrees (eulerOf q').2.2 + 360
           else degrees (eulerOf q').2.2), q'⟩ hraw hh
      exact ⟨hsm.1, fun o' ho' => hsm.2 o' ho'⟩

/-- `orientation_angle_ranges` at the initial state (empty, hence in-range,
history). -/
theorem orientation_angle_ranges_witness :
    (match processImuData initialFusion imuZero with
     | none => True
     | some os => orientationInRange os.1 ∧ historyInRange os.2) :=
  orientation_angle_ranges initialFusion imuZero
    (by intro o ho; simp [initialFusion] at ho)


/-- `atan2 0 1 = 0` (the argument of the complex number 1). -/
theorem atan2_zero_one : atan2 0 1 = 0 := by
  unfold atan2
  rw [show (⟨1, 0⟩ : ℂ) = 1 from by norm_num [Complex.ext_iff]]
  exact Complex.arg_one

/-- `atan2 0 0 = 0` (NumPy and CPython also return 0 there). -/
theorem atan2_zero_zero : atan2 0 0 = 0 := by
  unfold atan2
  rw [show (⟨0, 0⟩ : ℂ) = 0 from by norm_num [Complex.ext_iff]]
  exact Complex.arg_zero

/-- C2 (amended), part of the analysis: the quaternion `process_imu_data`
produces does not depend on the sample timestamps at all (the Madgwick
integration always uses the nominal sample period), while the complementary
filter is the component updated with `dt = max(ts - last_ts, 0.001)`. -/
theorem madgwick_uses_nominal_period :
    (∀ (s : Fusion) (d : IMUData) (t : ℝ),
        (processImuData s { d with timestamp := t }).map (fun p => p.2.madgwickQ) =
          (processImuData s d).map (fun p => p.2.madgwickQ)) ∧
    (∀ (s : Fusion) (d : IMUData),
        (processImuData s d).map (fun p => p.2.comp) =
          (processImuData s d).map (fun _ =>
            compUpdate s.comp
              ⟨d.accelX - s.accelOffset.x, d.accelY - s.accelOffset.y,
               d.accelZ - s.accelOffset.z⟩
              ⟨radians (d.gyroX - s.gyroOffset.x), radians (d.gyroY - s.gyroOffset.y),
               radians (d.gyroZ - s.gyroOffset.z)⟩
              (dtSpec s.lastUpdateTime d.timestamp s.samplePeriod))) := by
  constructor
  · intro s d t
    unfold processImuData
    dsimp only
    split <;> rfl
  · intro s d
    unfold processImuData dtSpec
    dsimp only
    split <;> rfl


/-- The Madgwick core at the identity quaternion, zero gyro and a pure-x
accelerometer, for an arbitrary integration step. -/
theorem madgwickCore_pure_x (step : ℝ) :
    madgwickCore step (1/10) ⟨1, 0, 0, 0⟩ ⟨0, 0, 0⟩ ⟨1, 0, 0⟩ none =
      some ⟨1 / Real.sqrt (1 + (step/10)^2), 0,
            (-(step/10)) / Real.sqrt (1 + (step/10)^2), 0⟩ := by
  have hn1 : v3norm ⟨1, 0, 0⟩ = 1 := by
    unfold v3norm
    norm_num
  have hs2 : qnorm ⟨0, 0, 2, 0⟩ = 2 := by
    unfold qnorm
    rw [show (0:ℝ)^2 + 0^2 + 2^2 + 0^2 = 2^2 by norm_num]
    exact Real.sqrt_sq (by norm_num)
  have h4 : Real.sqrt 4 = 2 := by
    rw [show (4:ℝ) = 2^2 by norm_num]
    exact Real.sqrt_sq (by norm_num)
  unfold madgwickCore
  rw [if_neg (by rw [hn1]; norm_num)]
  simp only [hn1]
  norm_num [qmul, qnorm, h4]
  have harg : (1:ℝ) + (1 / 10 * step) ^ 2 = 1 + (step / 10) ^ 2 := by ring
  rw [harg]
  refine ⟨?_, rfl, by ring_nf⟩
  intro hzero
  rw [Real.sqrt_eq_zero (by positivity)] at hzero
  nlinarith [sq_nonneg (step / 10)]


/-- Processing the all-zero sample from the initial state: the zero
accelerometer takes the Madgwick early return, the angles are all zero, the
complementary filter is unchanged, and `last_update_time` becomes 0. -/
theorem processImuData_initial_zero :
    processImuData initialFusion imuZero = some (⟨0, 0, 0, ⟨1, 0, 0, 0⟩⟩, fusionAfterZero) := by
  have h0 : v3norm ⟨0, 0, 0⟩ = 0 := by
    unfold v3norm
    norm_num
  have hcz : madgwickCore (1/10) (1/10) ⟨1, 0, 0, 0⟩ ⟨0, 0, 0⟩ ⟨0, 0, 0⟩ none =
      some ⟨1, 0, 0, 0⟩ := by
    unfold madgwickCore
    rw [if_pos h0]
  have heuler : eulerOf ⟨1, 0, 0, 0⟩ = (0, 0, 0) := by
    unfold eulerOf
    norm_num [atan2_zero_one, Real.arcsin_zero]
  have hdeg0 : degrees 0 = 0 := by
    unfold degrees
    norm_num
  have hfmod : pyFmod Real.pi (2 * Real.pi) - Real.pi = 0 := by
    unfold pyFmod
    rw [show Real.pi / (2 * Real.pi) = 1/2 from by
      rw [div_eq_iff (by positivity : (2 : ℝ) * Real.pi ≠ 0)]
      ring]
    norm_num
  have hcomp : compUpdate ⟨49/50, 0, 0⟩ ⟨0, 0, 0⟩ ⟨0, 0, 0⟩ (1/10) = ⟨49/50, 0, 0⟩ := by
    unfold compUpdate
    norm_num [atan2_zero_zero, Real.sqrt_zero]
    refine ⟨hfmod, ?_⟩
    rw [min_eq_right (by positivity), max_eq_right (neg_nonpos.mpr (by positivity))]
  unfold processImuData imuZero initialFusion fusionAfterZero
  norm_num [radians]
  simp only [hcz, heuler, hdeg0, hcomp]
  norm_num [smoothOrientation, initialFusion]

/-- The quaternion component of `process_imu_data` is exactly the Madgwick
update with the nominal sample period as integration step. -/
theorem processImuData_quat (s : Fusion) (d : IMUData) :
    (processImuData s d).map (fun p => p.2.madgwickQ) =
      madgwickCore s.samplePeriod s.madgwickBeta s.madgwickQ
        ⟨radians (d.gyroX - s.gyroOffset.x), radians (d.gyroY - s.gyroOffset.y),
         radians (d.gyroZ - s.gyroOffset.z)⟩
        ⟨d.accelX - s.accelOffset.x, d.accelY - s.accelOffset.y, d.accelZ - s.accelOffset.z⟩
        (if s.useMagnetometer ∧ (d.magX ≠ 0 ∨ d.magY ≠ 0 ∨ d.magZ ≠ 0) then
           some ⟨(d.magX - s.magOffset.x) / s.magScale.x, (d.magY - s.magOffset.y) / s.magScale.y,
                 (d.magZ - s.magOffset.z) / s.magScale.z⟩
         else none) := by
  unfold processImuData
  dsimp only
  split
  · rename_i heq
    rw [heq]
    rfl
  · rename_i q' heq
    rw [heq]
    rfl

/-- C2, counterexample: after one sample at t = 0 s, `last_update_time` is
0; per the claim the next sample (t = 5 s) should be integrated with
`dt = max(5 - 0, 0.001) = 5 s`, but the code's Madgwick quaternion is the
one obtained with the nominal 0.1 s period, and the two differ. -/
theorem madgwick_dt_claim_cex :
    processImuData initialFusion imuZero = some (⟨0, 0, 0, ⟨1, 0, 0, 0⟩⟩, fusionAfterZero) ∧
    fusionAfterZero.lastUpdateTime = some 0 ∧
    (processImuData fusionAfterZero imuStep5).map (fun p => p.2.madgwickQ) ≠
      processImuQuatSpecDt fusionAfterZero imuStep5 := by
  refine ⟨processImuData_initial_zero, rfl, ?_⟩
  have hmap : (processImuData fusionAfterZero imuStep5).map (fun p => p.2.madgwickQ) =
      madgwickCore (1/10) (1/10) ⟨1, 0, 0, 0⟩ ⟨0, 0, 0⟩ ⟨1, 0, 0⟩ none := by
    rw [processImuData_quat]
    norm_num [fusionAfterZero, initialFusion, imuStep5, radians]
  have hspec : processImuQuatSpecDt fusionAfterZero imuStep5 =
      madgwickCore 5 (1/10) ⟨1, 0, 0, 0⟩ ⟨0, 0, 0⟩ ⟨1, 0, 0⟩ none := by
    unfold processImuQuatSpecDt fusionAfterZero initialFusion imuStep5
    norm_num [radians]
  rw [hmap, hspec, madgwickCore_pure_x (1/10), madgwickCore_pure_x 5]
  intro h
  have hq := Option.some.inj h
  have hw := congrArg Quat.w hq
  simp only at hw
  have h1 : (0:ℝ) ≤ 1 + (1/10/10)^2 := by positivity
  have h2 : (0:ℝ) ≤ 1 + (5/10)^2 := by positivity
  have hsq := congrArg (fun t => t^2) hw
  simp only [div_pow, one_pow, Real.sq_sqrt h1, Real.sq_sqrt h2] at hsq
  norm_num at hsq
  rw [div_pow, div_pow, Real.sq_sqrt (by norm_num : (0:ℝ) ≤ 10001),
    Real.sq_sqrt (by norm_num : (0:ℝ) ≤ 10000), Real.sq_sqrt (by norm_num : (0:ℝ) ≤ 5),
    Real.sq_sqrt (by norm_num : (0:ℝ) ≤ 4)] at hsq
  norm_num at hsq

end Sentinel
